import Mathlib

/-!
Entropy request handler (`src/app/api/generate-entropy/route.js`)

A shallow embedding of the `POST` handler and of `generateRandomFromTxHash`.
The remote collaborators (JSON-RPC node, contract binding, process
environment, clock, byte generator) are the fields of a `World`; every call
the handler makes is recorded in an explicit effect trace. A `World` gives the
message of the `Error` a failing call throws; a `RawWorld` gives the thrown
value itself, for the `catch` block, which reads `error.message`.
-/

namespace GenerateEntropy

/-! ## JavaScript numbers and `parseInt(_, 16)` -/

/-- JavaScript number, restricted to the values the handler can produce: `NaN`
or an integer (the parsed slice has at most 8 characters, so every magnitude
is below `16 ^ 8` and exactly representable as a double). -/
inductive JSNumber where
  | nan : JSNumber
  | int (i : Int) : JSNumber
  deriving DecidableEq, Repr

/-- Value of a character as a digit of radix 16, as `parseInt` reads it
(both letter cases); `none` for any other character. -/
def hexDigitValue (c : Char) : Option Nat :=
  let n := c.toNat
  if 0x30 ≤ n ∧ n ≤ 0x39 then some (n - 0x30)
  else if 0x61 ≤ n ∧ n ≤ 0x66 then some (n - 0x61 + 10)
  else if 0x41 ≤ n ∧ n ≤ 0x46 then some (n - 0x41 + 10)
  else none

/-- Characters removed by the leading-whitespace trim of `parseInt`
(ECMAScript WhiteSpace and LineTerminator code points). -/
def isJSWhiteSpace (c : Char) : Bool :=
  let n := c.toNat
  n = 0x09 || n = 0x0A || n = 0x0B || n = 0x0C || n = 0x0D || n = 0x20 ||
  n = 0xA0 || n = 0x1680 || (0x2000 ≤ n && n ≤ 0x200A) || n = 0x2028 ||
  n = 0x2029 || n = 0x202F || n = 0x205F || n = 0x3000 || n = 0xFEFF

/-- Longest prefix of radix-16 digits, as digit values. -/
def takeHexDigits : List Char → List Nat
  | [] => []
  | c :: cs =>
    match hexDigitValue c with
    | some d => d :: takeHexDigits cs
    | none => []

/-- Left-to-right accumulation of radix-16 digit values. -/
def accumulateHex (ds : List Nat) : Nat :=
  ds.foldl (fun acc d => acc * 16 + d) 0

/-- Removal of an optional `0x` / `0X` prefix, done by `parseInt` when the
radix is 16. -/
def stripHexPrefix : List Char → List Char
  | c :: d :: rest => if c = '0' ∧ (d = 'x' ∨ d = 'X') then rest else c :: d :: rest
  | cs => cs

/-- Reading of the optional sign of `parseInt`: whether the number is
negative, and the characters after the sign. -/
def splitSign : List Char → Bool × List Char
  | c :: rest =>
    if c = '-' then (true, rest) else if c = '+' then (false, rest) else (false, c :: rest)
  | [] => (false, [])

/-- The builtin `parseInt(s, 16)`: trim leading white space, read an optional
sign, drop an optional `0x` prefix, then read the longest run of radix-16
digits; `NaN` when that run is empty. -/
def parseInt16 (s : List Char) : JSNumber :=
  let trimmed := s.dropWhile isJSWhiteSpace
  let signed := splitSign trimmed
  let digits := takeHexDigits (stripHexPrefix signed.2)
  if digits.isEmpty then JSNumber.nan
  else if signed.1 then JSNumber.int (-(accumulateHex digits : Int))
  else JSNumber.int (accumulateHex digits : Int)

/-- The remainder operator `%` of JavaScript on a number and a positive
integer constant: `NaN` stays `NaN`, otherwise the truncated remainder (the
sign follows the dividend). -/
def jsRem (a : JSNumber) (m : Int) : JSNumber :=
  match a with
  | JSNumber.nan => JSNumber.nan
  | JSNumber.int i => JSNumber.int (Int.tmod i m)

/-- The method `String.prototype.slice(start, stop)` for `0 ≤ start ≤ stop`,
on the characters of the string (JavaScript counts UTF-16 code units, which
are the characters for every string without astral code points, transaction
hashes among them). -/
def slice (s : String) (start stop : Nat) : List Char :=
  (s.data.drop start).take (stop - start)

/-- Source `generateRandomFromTxHash` (route.js, lines 146-150):
`parseInt(txHash.slice(2, 10), 16) % 1000000`. -/
def generateRandomFromTxHash (txHash : String) : JSNumber :=
  let hashNumber := parseInt16 (slice txHash 2 10)
  jsRem hashNumber 1000000

/-! ## Well-formed transaction hashes and the value of hex numerals -/

/-- Radix-16 digit test. -/
def isHexDigit (c : Char) : Bool := (hexDigitValue c).isSome

/-- A transaction hash: `0x` followed by 64 hexadecimal digits. -/
def IsTxHash (h : String) : Prop :=
  h.data.take 2 = ['0', 'x'] ∧ (h.data.drop 2).length = 64 ∧
    ∀ c ∈ h.data.drop 2, isHexDigit c = true

instance (h : String) : Decidable (IsTxHash h) := by
  unfold IsTxHash; infer_instance

/-- The unsigned integer denoted by a hexadecimal numeral, most significant
digit first: each digit is weighted by the power of 16 of its position. A
character that is no digit counts as 0. -/
def hexNumeral : List Char → Nat
  | [] => 0
  | c :: cs => (hexDigitValue c).getD 0 * 16 ^ cs.length + hexNumeral cs

/-! ## Library functions used by the handler -/

/-- Decimal digits of a natural number, as JavaScript prints a non-negative
bigint or a non-negative integer number below `10 ^ 21`. -/
def decimalString (n : Nat) : String := String.mk (Nat.toDigits 10 n)

/-- Removal of trailing `0` characters from a list given in reverse order,
keeping at least one character. -/
def dropZerosKeepOne : List Char → List Char
  | c :: d :: rest => if c = '0' then dropZerosKeepOne (d :: rest) else c :: d :: rest
  | cs => cs

/-- The function `ethers.formatEther` on a non-negative amount of wei: the
amount divided by `10 ^ 18` as a decimal numeral with a decimal point, an
integer part without leading zeros and a fractional part of up to 18 digits
with trailing zeros removed down to one digit. -/
def formatEther (wei : Nat) : String :=
  let whole := Nat.toDigits 10 (wei / 10 ^ 18)
  let fraction := Nat.toDigits 10 (wei % 10 ^ 18)
  let padded := List.replicate (18 - fraction.length) '0' ++ fraction
  String.mk (whole ++ '.' :: (dropZerosKeepOne padded.reverse).reverse)

/-- One lower-case hexadecimal digit. -/
def hexChar (n : Nat) : Char :=
  if n < 10 then Char.ofNat (0x30 + n) else Char.ofNat (0x61 + (n - 10))

/-- The function `ethers.hexlify` on a byte array: `0x` followed by two
lower-case hexadecimal digits per byte. -/
def hexlify (bytes : List (Fin 256)) : String :=
  String.mk ('0' :: 'x' :: bytes.flatMap (fun b => [hexChar (b.val / 16), hexChar (b.val % 16)]))

/-- Reading of the digits of a hexadecimal string two at a time: the byte
denoted by each pair of digits, most significant digit first. -/
def decodeHexBytes : List Char → List Nat
  | a :: b :: rest => hexNumeral [a, b] :: decodeHexBytes rest
  | _ => []

/-! ## Collaborators -/

/-- Source constant `PYTH_ENTROPY_ADDRESS` (route.js, line 4). -/
def PYTH_ENTROPY_ADDRESS : String := "0x36825bf3fbdf5a29e2d5148bfe7dcf7b5639e320"

/-- Log entry of a transaction receipt. -/
structure Log where
  address : String
  topics : List String
  data : String
  deriving DecidableEq, Repr

/-- The part of a `LogDescription` the handler reads: the event name and
`args.sequenceNumber` (`none` when `args` has no such entry, which JavaScript
reads as `undefined`). -/
structure LogDescription where
  name : String
  sequenceNumber : Option Nat
  deriving DecidableEq, Repr

/-- Outcome of `contract.interface.parseLog(log)`: it throws, returns `null`,
or returns a description. -/
inductive ParseLogResult where
  | throws : ParseLogResult
  | null : ParseLogResult
  | description (d : LogDescription) : ParseLogResult
  deriving DecidableEq, Repr

/-- The submitted transaction, as far as the handler reads it (`tx.hash`). -/
structure TransactionResponse where
  hash : String
  deriving DecidableEq, Repr

/-- The receipt returned by `tx.wait()`, as far as the handler reads it. -/
structure TransactionReceipt where
  blockNumber : Nat
  logs : List Log
  deriving DecidableEq, Repr

/-- Everything outside the handler. A call that throws is `Except.error`
with the message of the thrown `Error`. -/
structure World where
  /-- The call `provider.getCode(address)`. -/
  getCode : String → Except String String
  /-- The call `contract.getDefaultProvider()`. -/
  getDefaultProvider : Except String String
  /-- The call `contract.getFee(provider)`, in wei. -/
  getFee : String → Except String Nat
  /-- The lookup `process.env[name]`; `none` is `undefined`. -/
  env : String → Option String
  /-- The constructor `new ethers.Wallet(privateKey, provider)`; the result is
  the address of the wallet. -/
  newWallet : String → Except String String
  /-- The call `ethers.randomBytes(length)`. -/
  randomBytes : Nat → List (Fin 256)
  /-- The call `provider.getBalance(address)`, in wei. -/
  getBalance : String → Except String Nat
  /-- The call `contractWithSigner.requestWithCallback(provider,
  userCommitment, overrides)` with the overrides `value` and `gasLimit`. -/
  requestWithCallback : String → List (Fin 256) → Nat → Nat → Except String TransactionResponse
  /-- The call `tx.wait()`. -/
  wait : TransactionResponse → Except String TransactionReceipt
  /-- The decoder `contract.interface.parseLog(log)`. -/
  parseLog : Log → ParseLogResult
  /-- The clock `Date.now()`. -/
  now : Nat

/-- One call to a collaborator, with its arguments. -/
inductive Effect where
  | getCode (address : String) : Effect
  | getDefaultProvider : Effect
  | getFee (provider : String) : Effect
  | newWallet (privateKey : String) : Effect
  | randomBytes (length : Nat) : Effect
  | getBalance (address : String) : Effect
  | requestWithCallback (provider : String) (userCommitment : List (Fin 256))
      (value gasLimit : Nat) : Effect
  | wait (hash : String) : Effect
  deriving DecidableEq, Repr

/-- Whether an effect is a transaction submission. -/
def Effect.isSubmission : Effect → Bool
  | Effect.requestWithCallback _ _ _ _ => true
  | _ => false

/-- Whether an effect is the construction of the signer. -/
def Effect.isNewWallet : Effect → Bool
  | Effect.newWallet _ => true
  | _ => false

/-! ## The handler -/

/-- The errors raised inside the `try` block, by the statement that throws. -/
inductive HandlerError where
  /-- Thrown at line 29. -/
  | contractNotFound : HandlerError
  /-- Thrown at line 50. -/
  | missingCredential : HandlerError
  /-- Thrown at line 71. -/
  | insufficientBalance (fee balance : Nat) (walletAddress : String) : HandlerError
  /-- Thrown by a collaborator call. -/
  | collaborator (message : String) : HandlerError
  deriving DecidableEq, Repr

/-- The property `error.message` of each error. -/
def HandlerError.message : HandlerError → String
  | HandlerError.contractNotFound =>
    "No contract found at address " ++ PYTH_ENTROPY_ADDRESS ++ " on Monad Testnet"
  | HandlerError.missingCredential =>
    "MONAD_TREASURY_PRIVATE_KEY environment variable is required"
  | HandlerError.insufficientBalance fee balance walletAddress =>
    "Insufficient balance. Need " ++ formatEther fee ++ " MON, have " ++ formatEther balance
      ++ " MON. Please add more MON to treasury: " ++ walletAddress
  | HandlerError.collaborator message => message

/-- Truthiness of an environment value: set and not the empty string. -/
def envTruthy : Option String → Bool
  | some s => s != ""
  | none => false

/-- The operator `a || b` on environment values. -/
def jsOr (a b : Option String) : Option String :=
  if envTruthy a then a else b

/-- The expression of line 48:
`process.env.MONAD_TREASURY_PRIVATE_KEY || process.env.TREASURY_PRIVATE_KEY`. -/
def privateKey (w : World) : Option String :=
  jsOr (w.env "MONAD_TREASURY_PRIVATE_KEY") (w.env "TREASURY_PRIVATE_KEY")

/-- The test of line 95:
`parsedLog && (parsedLog.name === 'Request' || parsedLog.args?.sequenceNumber)`
for a description (a bigint is truthy when it is not `0n`). -/
def matchesRequest (d : LogDescription) : Bool :=
  d.name == "Request" ||
    (match d.sequenceNumber with
     | some n => n != 0
     | none => false)

/-- The loop of lines 91-102 over `receipt.logs`: the value of the variable
`sequenceNumber` after the loop (`none` is `null` or `undefined`). -/
def scanLogs (parseLog : Log → ParseLogResult) : List Log → Option Nat
  | [] => none
  | log :: rest =>
    match parseLog log with
    | ParseLogResult.throws => scanLogs parseLog rest
    | ParseLogResult.null => scanLogs parseLog rest
    | ParseLogResult.description d =>
      if matchesRequest d then d.sequenceNumber else scanLogs parseLog rest

/-- Lines 103-106: `if (!sequenceNumber) sequenceNumber = 0n`. -/
def defaultSequenceNumber : Option Nat → Nat
  | some n => if n = 0 then 0 else n
  | none => 0

/-- The object `entropyProof` of lines 109-122. -/
structure EntropyProof where
  sequenceNumber : String
  userRandomNumber : String
  transactionHash : String
  blockNumber : String
  randomValue : JSNumber
  network : String
  explorerUrl : String
  monadExplorerUrl : String
  timestamp : Nat
  source : String
  deriving DecidableEq, Repr

/-- Lines 90-122: the proof built from the commitment, the submitted
transaction and its receipt. -/
def buildProof (w : World) (userRandomNumber : List (Fin 256)) (tx : TransactionResponse)
    (receipt : TransactionReceipt) : EntropyProof :=
  let sequenceNumber := defaultSequenceNumber (scanLogs w.parseLog receipt.logs)
  { sequenceNumber := decimalString sequenceNumber
    userRandomNumber := hexlify userRandomNumber
    transactionHash := tx.hash
    blockNumber := decimalString receipt.blockNumber
    randomValue := generateRandomFromTxHash tx.hash
    network := "monad-testnet"
    explorerUrl := "https://entropy-explorer.pyth.network/?chain=monad-testnet&search=" ++ tx.hash
    monadExplorerUrl := "https://testnet.monadexplorer.com/tx/" ++ tx.hash
    timestamp := w.now
    source := "Pyth Entropy V1 (Monad Testnet)" }

/-- Turns the error of a collaborator call into the error seen by `catch`. -/
def thrown {α : Type} (t : List Effect) (message : String) :
    List Effect × Except HandlerError α :=
  (t, Except.error (HandlerError.collaborator message))

/-- The `try` block of `POST` (route.js, lines 20-133): the calls made, in
order, and either the proof or the error thrown. Console output is left out. -/
def tryBlock (w : World) : List Effect × Except HandlerError EntropyProof :=
  let t1 := [Effect.getCode PYTH_ENTROPY_ADDRESS]
  match w.getCode PYTH_ENTROPY_ADDRESS with
  | Except.error m => thrown t1 m
  | Except.ok code =>
  if code = "0x" then (t1, Except.error HandlerError.contractNotFound) else
  let t2 := t1 ++ [Effect.getDefaultProvider]
  match w.getDefaultProvider with
  | Except.error m => thrown t2 m
  | Except.ok defaultProvider =>
  let t3 := t2 ++ [Effect.getFee defaultProvider]
  match w.getFee defaultProvider with
  | Except.error m => thrown t3 m
  | Except.ok fee =>
  match privateKey w with
  | none => (t3, Except.error HandlerError.missingCredential)
  | some key =>
  if envTruthy (some key) = false then (t3, Except.error HandlerError.missingCredential) else
  let t4 := t3 ++ [Effect.newWallet key]
  match w.newWallet key with
  | Except.error m => thrown t4 m
  | Except.ok walletAddress =>
  let t5 := t4 ++ [Effect.randomBytes 32]
  let userRandomNumber := w.randomBytes 32
  let t6 := t5 ++ [Effect.getBalance walletAddress]
  match w.getBalance walletAddress with
  | Except.error m => thrown t6 m
  | Except.ok balance =>
  if balance < fee then
    (t6, Except.error (HandlerError.insufficientBalance fee balance walletAddress))
  else
  let t7 := t6 ++ [Effect.requestWithCallback defaultProvider userRandomNumber fee 700000]
  match w.requestWithCallback defaultProvider userRandomNumber fee 700000 with
  | Except.error m => thrown t7 m
  | Except.ok tx =>
  let t8 := t7 ++ [Effect.wait tx.hash]
  match w.wait tx with
  | Except.error m => thrown t8 m
  | Except.ok receipt => (t8, Except.ok (buildProof w userRandomNumber tx receipt))

/-- The JSON body of a response; an absent field is `none`. -/
structure ResponseBody where
  success : Bool
  randomValue : Option JSNumber
  entropyProof : Option EntropyProof
  error : Option String
  deriving DecidableEq, Repr

/-- The response returned by `Response.json`; the status is 200 when none
is given. -/
structure Response where
  status : Nat
  body : ResponseBody
  deriving DecidableEq, Repr

/-- Source `POST` (route.js, lines 19-143): the calls made and the response.
The request argument is not read by the source and is left out. -/
def POST (w : World) : List Effect × Response :=
  match tryBlock w with
  | (t, Except.ok entropyProof) =>
    (t, { status := 200
          body := { success := true
                    randomValue := some entropyProof.randomValue
                    entropyProof := some entropyProof
                    error := none } })
  | (t, Except.error error) =>
    (t, { status := 500
          body := { success := false
                    randomValue := none
                    entropyProof := none
                    error := some error.message } })

/-! ## Hypotheses on the collaborators -/

/-- The contract-code check passes. -/
def CodeDeployed (w : World) : Prop :=
  ∃ code, w.getCode PYTH_ENTROPY_ADDRESS = Except.ok code ∧ code ≠ "0x"

/-- The reads made before the credential check succeed, with the given
results, and the contract is deployed. -/
structure ReadsSucceed (w : World) (defaultProvider : String) (fee : Nat) : Prop where
  codeDeployed : CodeDeployed w
  providerRead : w.getDefaultProvider = Except.ok defaultProvider
  feeRead : w.getFee defaultProvider = Except.ok fee

/-- The run reaches the balance check: the reads succeed, a credential is
present, the signer is built and its balance is read. -/
structure BalanceRead (w : World) (defaultProvider : String) (fee : Nat)
    (key walletAddress : String) (balance : Nat)
    extends ReadsSucceed w defaultProvider fee : Prop where
  keySet : privateKey w = some key
  keyNonEmpty : key ≠ ""
  walletBuilt : w.newWallet key = Except.ok walletAddress
  balanceRead : w.getBalance walletAddress = Except.ok balance

/-- Every collaborator call of a run that reaches the receipt succeeded, with
the given results. -/
structure Confirmed (w : World) (defaultProvider : String) (fee : Nat)
    (key walletAddress : String) (balance : Nat) (tx : TransactionResponse)
    (receipt : TransactionReceipt)
    extends BalanceRead w defaultProvider fee key walletAddress balance : Prop where
  funded : fee ≤ balance
  submitted :
    w.requestWithCallback defaultProvider (w.randomBytes 32) fee 700000 = Except.ok tx
  mined : w.wait tx = Except.ok receipt

/-- The event names of the source constant `PYTH_ENTROPY_ABI` (route.js,
lines 8-17): the interface declares the single event `Request`. -/
def PYTH_ENTROPY_ABI_EVENTS : List String := ["Request"]

/-- The decoder of the world is the one of an interface built from
`PYTH_ENTROPY_ABI`: a description it returns is of an event of that ABI. -/
def AbiConformant (w : World) : Prop :=
  ∀ log d, w.parseLog log = ParseLogResult.description d → d.name ∈ PYTH_ENTROPY_ABI_EVENTS

/-- The submissions among the calls of a run. -/
def submissions (t : List Effect) : List Effect := t.filter Effect.isSubmission

/-- The calls of a run that stops at the balance check. -/
def balanceTrace (defaultProvider key walletAddress : String) : List Effect :=
  [Effect.getCode PYTH_ENTROPY_ADDRESS, Effect.getDefaultProvider,
   Effect.getFee defaultProvider, Effect.newWallet key, Effect.randomBytes 32,
   Effect.getBalance walletAddress]

/-- The calls of a run that reaches the receipt, in order. -/
def confirmedTrace (w : World) (defaultProvider : String) (fee : Nat)
    (key walletAddress : String) (tx : TransactionResponse) : List Effect :=
  [Effect.getCode PYTH_ENTROPY_ADDRESS, Effect.getDefaultProvider,
   Effect.getFee defaultProvider, Effect.newWallet key, Effect.randomBytes 32,
   Effect.getBalance walletAddress,
   Effect.requestWithCallback defaultProvider (w.randomBytes 32) fee 700000,
   Effect.wait tx.hash]

/-! ## Concrete worlds -/

/-- A transaction hash whose first four bytes are `0x000f423f = 999999`. -/
def sampleHash : String :=
  "0x000f423f00000000000000000000000000000000000000000000000000000000"

/-- A log that the interface decodes as the `Request` event. -/
def requestLog : Log :=
  { address := PYTH_ENTROPY_ADDRESS, topics := ["Request"], data := "0x07" }

/-- A log of another contract, which the interface does not decode. -/
def foreignLog : Log :=
  { address := "0x00", topics := [], data := "0x" }

/-- A chain where the oracle is deployed, the default provider is `0xP`, the
primary credential is set, and a submission is mined at block 42 with one
foreign log and one `Request` log of sequence number 7. -/
def sampleWorld (fee balance : Nat) : World :=
  { getCode := fun _ => Except.ok "0x6080"
    getDefaultProvider := Except.ok "0xP"
    getFee := fun _ => Except.ok fee
    env := fun name => if name = "MONAD_TREASURY_PRIVATE_KEY" then some "k1" else none
    newWallet := fun _ => Except.ok "0xW"
    randomBytes := fun n => List.replicate n 171
    getBalance := fun _ => Except.ok balance
    requestWithCallback := fun _ _ _ _ => Except.ok { hash := sampleHash }
    wait := fun _ => Except.ok { blockNumber := 42, logs := [foreignLog, requestLog] }
    parseLog := fun log =>
      if log = requestLog then
        ParseLogResult.description { name := "Request", sequenceNumber := some 7 }
      else ParseLogResult.null
    now := 1700000000000 }

/-- The chain of `sampleWorld` without code at the oracle address, without
any credential, and with a balance below the fee. -/
def undeployedWorld : World :=
  { sampleWorld 1000 500 with
    getCode := fun _ => Except.ok "0x"
    env := fun _ => none }

/-- The chain of `sampleWorld` with the oracle deployed, no credential, and a
balance below the fee. -/
def keylessWorld : World :=
  { sampleWorld 1000 500 with env := fun _ => none }

/-- A log whose decoding throws. -/
def brokenLog : Log :=
  { address := PYTH_ENTROPY_ADDRESS, topics := ["Request"], data := "0x" }

/-- The chain of `sampleWorld`, funded, where the receipt holds one foreign
log and one log whose decoding throws. -/
def silentWorld : World :=
  { sampleWorld 1000 2000 with
    wait := fun _ => Except.ok { blockNumber := 42, logs := [foreignLog, brokenLog] }
    parseLog := fun log =>
      if log = brokenLog then ParseLogResult.throws else ParseLogResult.null }

/-- The chain of `sampleWorld`, funded, where the primary credential is set
to the empty string and the fallback credential is `k2`. -/
def fallbackWorld : World :=
  { sampleWorld 1000 2000 with
    env := fun name =>
      if name = "MONAD_TREASURY_PRIVATE_KEY" then some ""
      else if name = "TREASURY_PRIVATE_KEY" then some "k2" else none }

/-- The chain of `sampleWorld`, funded, where the submission is rejected. -/
def revertingWorld : World :=
  { sampleWorld 1000 2000 with
    requestWithCallback := fun _ _ _ _ => Except.error "execution reverted" }

/-! ## Thrown values and the `catch` block -/

/-- A value that reaches `catch (error)`, as far as line 140 reads it through
`error.message`. A value whose `message` is neither a string nor `undefined`
is not represented. -/
inductive Thrown where
  /-- An `Error` (or any object) whose `message` is the given string. -/
  | errorObject (message : String) : Thrown
  /-- A value other than `null` and `undefined` whose `message` is
  `undefined`. -/
  | noMessage : Thrown
  /-- One of `null` and `undefined`. -/
  | nullish : Thrown
  deriving DecidableEq, Repr

/-- The collaborators when a failing call may throw any value: the fields of
`World`, with the thrown value in place of the message of an `Error`. -/
structure RawWorld where
  /-- The call `provider.getCode(address)`. -/
  getCode : String → Except Thrown String
  /-- The call `contract.getDefaultProvider()`. -/
  getDefaultProvider : Except Thrown String
  /-- The call `contract.getFee(provider)`, in wei. -/
  getFee : String → Except Thrown Nat
  /-- The lookup `process.env[name]`; `none` is `undefined`. -/
  env : String → Option String
  /-- The constructor `new ethers.Wallet(privateKey, provider)`; the result is
  the address of the wallet. -/
  newWallet : String → Except Thrown String
  /-- The call `ethers.randomBytes(length)`. -/
  randomBytes : Nat → List (Fin 256)
  /-- The call `provider.getBalance(address)`, in wei. -/
  getBalance : String → Except Thrown Nat
  /-- The call `contractWithSigner.requestWithCallback(provider,
  userCommitment, overrides)` with the overrides `value` and `gasLimit`. -/
  requestWithCallback : String → List (Fin 256) → Nat → Nat → Except Thrown TransactionResponse
  /-- The call `tx.wait()`. -/
  wait : TransactionResponse → Except Thrown TransactionReceipt
  /-- The decoder `contract.interface.parseLog(log)`. -/
  parseLog : Log → ParseLogResult
  /-- The clock `Date.now()`. -/
  now : Nat

/-- The text a thrown value contributes as the message of an `Error`; empty
for a value that is no `Error`. -/
def Thrown.text : Thrown → String
  | Thrown.errorObject message => message
  | Thrown.noMessage => ""
  | Thrown.nullish => ""

/-- A result with the thrown value replaced by its text. -/
def textResult {α : Type} : Except Thrown α → Except String α
  | Except.ok a => Except.ok a
  | Except.error e => Except.error e.text

/-- The `World` of a raw world: the same results, a failure keeping only the
text of the thrown value. -/
def RawWorld.toWorld (rw : RawWorld) : World :=
  { getCode := fun address => textResult (rw.getCode address)
    getDefaultProvider := textResult rw.getDefaultProvider
    getFee := fun provider => textResult (rw.getFee provider)
    env := rw.env
    newWallet := fun key => textResult (rw.newWallet key)
    randomBytes := rw.randomBytes
    getBalance := fun address => textResult (rw.getBalance address)
    requestWithCallback := fun provider commitment value gasLimit =>
      textResult (rw.requestWithCallback provider commitment value gasLimit)
    wait := fun tx => textResult (rw.wait tx)
    parseLog := rw.parseLog
    now := rw.now }

/-- The value thrown by `throw new Error(message)` for each error of the `try`
block. -/
def HandlerError.thrown (e : HandlerError) : Thrown := Thrown.errorObject e.message

/-- The `try` block of `POST` (route.js, lines 20-133) over a raw world: the
calls made, in order, and either the proof or the value thrown. The three
`throw` statements throw an `Error`; a failing call throws its own value. -/
def tryBlockRaw (rw : RawWorld) : List Effect × Except Thrown EntropyProof :=
  let t1 := [Effect.getCode PYTH_ENTROPY_ADDRESS]
  match rw.getCode PYTH_ENTROPY_ADDRESS with
  | Except.error e => (t1, Except.error e)
  | Except.ok code =>
  if code = "0x" then (t1, Except.error HandlerError.contractNotFound.thrown) else
  let t2 := t1 ++ [Effect.getDefaultProvider]
  match rw.getDefaultProvider with
  | Except.error e => (t2, Except.error e)
  | Except.ok defaultProvider =>
  let t3 := t2 ++ [Effect.getFee defaultProvider]
  match rw.getFee defaultProvider with
  | Except.error e => (t3, Except.error e)
  | Except.ok fee =>
  match jsOr (rw.env "MONAD_TREASURY_PRIVATE_KEY") (rw.env "TREASURY_PRIVATE_KEY") with
  | none => (t3, Except.error HandlerError.missingCredential.thrown)
  | some key =>
  if envTruthy (some key) = false then
    (t3, Except.error HandlerError.missingCredential.thrown)
  else
  let t4 := t3 ++ [Effect.newWallet key]
  match rw.newWallet key with
  | Except.error e => (t4, Except.error e)
  | Except.ok walletAddress =>
  let t5 := t4 ++ [Effect.randomBytes 32]
  let userRandomNumber := rw.randomBytes 32
  let t6 := t5 ++ [Effect.getBalance walletAddress]
  match rw.getBalance walletAddress with
  | Except.error e => (t6, Except.error e)
  | Except.ok balance =>
  if balance < fee then
    (t6, Except.error (HandlerError.insufficientBalance fee balance walletAddress).thrown)
  else
  let t7 := t6 ++ [Effect.requestWithCallback defaultProvider userRandomNumber fee 700000]
  match rw.requestWithCallback defaultProvider userRandomNumber fee 700000 with
  | Except.error e => (t7, Except.error e)
  | Except.ok tx =>
  let t8 := t7 ++ [Effect.wait tx.hash]
  match rw.wait tx with
  | Except.error e => (t8, Except.error e)
  | Except.ok receipt => (t8, Except.ok (buildProof rw.toWorld userRandomNumber tx receipt))

/-- How a call of `POST` ends: it returns a response, or the `catch` block
itself throws the `TypeError` of reading `message` of `null` or `undefined`. -/
inductive HandlerOutcome where
  | returns (response : Response) : HandlerOutcome
  | throwsTypeError : HandlerOutcome
  deriving DecidableEq, Repr

/-- The response of lines 138-141 for a message that is a string. -/
def failureResponse (message : String) : Response :=
  { status := 500
    body := { success := false, randomValue := none, entropyProof := none
              error := some message } }

/-- The response of lines 129-133 for a proof. -/
def successResponse (entropyProof : EntropyProof) : Response :=
  { status := 200
    body := { success := true, randomValue := some entropyProof.randomValue
              entropyProof := some entropyProof, error := none } }

/-- The `catch` block of `POST` (route.js, lines 135-142): `error.message` is
read without a guard, so a caught `null` or `undefined` makes the block throw;
a `message` that is `undefined` leaves the body without an `error` field. -/
def catchBlock : Thrown → HandlerOutcome
  | Thrown.errorObject message => HandlerOutcome.returns (failureResponse message)
  | Thrown.noMessage =>
    HandlerOutcome.returns
      { status := 500
        body := { success := false, randomValue := none, entropyProof := none
                  error := none } }
  | Thrown.nullish => HandlerOutcome.throwsTypeError

/-- Source `POST` (route.js, lines 19-143) over a raw world: the calls made
and how the call ends. -/
def POSTRaw (rw : RawWorld) : List Effect × HandlerOutcome :=
  match tryBlockRaw rw with
  | (t, Except.ok entropyProof) => (t, HandlerOutcome.returns (successResponse entropyProof))
  | (t, Except.error error) => (t, catchBlock error)

/-- A result that is a value or a thrown `Error`. -/
def ThrowsError {α : Type} (result : Except Thrown α) : Prop :=
  ∀ e, result = Except.error e → ∃ message, e = Thrown.errorObject message

/-- Every failing collaborator call throws an `Error` with a string message,
as ethers does. -/
structure ThrowsErrors (rw : RawWorld) : Prop where
  getCode : ∀ address, ThrowsError (rw.getCode address)
  getDefaultProvider : ThrowsError rw.getDefaultProvider
  getFee : ∀ provider, ThrowsError (rw.getFee provider)
  newWallet : ∀ key, ThrowsError (rw.newWallet key)
  getBalance : ∀ address, ThrowsError (rw.getBalance address)
  requestWithCallback : ∀ provider commitment value gasLimit,
    ThrowsError (rw.requestWithCallback provider commitment value gasLimit)
  wait : ∀ tx, ThrowsError (rw.wait tx)

/-- The call of `POST` returns the failure response with the given message. -/
def Fails (rw : RawWorld) (message : String) : Prop :=
  (POSTRaw rw).2 = HandlerOutcome.returns (failureResponse message)

/-- A result with the message of an `Error` turned into the thrown `Error`. -/
def errorResult {α : Type} : Except String α → Except Thrown α
  | Except.ok a => Except.ok a
  | Except.error message => Except.error (Thrown.errorObject message)

/-- The raw world of a `World`: every failing call throws an `Error` with the
message the `World` gives. -/
def World.toRaw (w : World) : RawWorld :=
  { getCode := fun address => errorResult (w.getCode address)
    getDefaultProvider := errorResult w.getDefaultProvider
    getFee := fun provider => errorResult (w.getFee provider)
    env := w.env
    newWallet := fun key => errorResult (w.newWallet key)
    randomBytes := w.randomBytes
    getBalance := fun address => errorResult (w.getBalance address)
    requestWithCallback := fun provider commitment value gasLimit =>
      errorResult (w.requestWithCallback provider commitment value gasLimit)
    wait := fun tx => errorResult (w.wait tx)
    parseLog := w.parseLog
    now := w.now }

end GenerateEntropy

/-!
Smart account utilities (`src/utils/smartAccountUtils.js`)

A shallow embedding of `checkSmartAccountSupport` and `batchTransactions` in a
browser, where `window` exists; the wallet client and the injected provider
are parameters and every call made is recorded in a trace.
-/

namespace SmartAccountUtils

/-- A JavaScript value as a JSON-RPC call can return it, with `undefined`. A
number is given as an integer: the functions here only test whether a number
is zero. -/
inductive JSValue where
  | undefined : JSValue
  | null : JSValue
  | bool (b : Bool) : JSValue
  | number (n : Int) : JSValue
  | string (s : String) : JSValue
  | array (items : List JSValue) : JSValue
  | object (fields : List (String × JSValue)) : JSValue

/-- Truthiness of a JavaScript value. -/
def JSValue.truthy : JSValue → Bool
  | JSValue.undefined => false
  | JSValue.null => false
  | JSValue.bool b => b
  | JSValue.number n => n != 0
  | JSValue.string s => s != ""
  | JSValue.array _ => true
  | JSValue.object _ => true

/-- The property read `v[key]` on a value that is neither `null` nor
`undefined`, for a key that no prototype defines: the own entry of an object,
`undefined` otherwise. -/
def JSValue.getProperty (v : JSValue) (key : String) : JSValue :=
  match v with
  | JSValue.object fields => (fields.lookup key).getD JSValue.undefined
  | _ => JSValue.undefined

/-- The optional chain `v?.key`. -/
def JSValue.optionalGet (v : JSValue) (key : String) : JSValue :=
  match v with
  | JSValue.undefined => JSValue.undefined
  | JSValue.null => JSValue.undefined
  | _ => v.getProperty key

/-- Outcome of `provider.request(args)`: the call throws, or returns a promise
that rejects, or returns a promise that resolves. -/
inductive RequestOutcome where
  | throws (message : String) : RequestOutcome
  | rejects (message : String) : RequestOutcome
  | resolves (value : JSValue) : RequestOutcome

/-- A wallet client that is present: the outcome of `getAddresses()`. -/
structure WalletClient where
  getAddresses : Except String JSValue

/-- The injected provider `window.ethereum`: the outcome of `request` for a
method and its parameters. -/
structure InjectedProvider where
  request : String → List JSValue → RequestOutcome

/-- The browser: `ethereum` is `window.ethereum`, `none` when it is not
injected. -/
structure Browser where
  ethereum : Option InjectedProvider

/-- One call made by the utilities. -/
inductive WalletEffect where
  | getAddresses : WalletEffect
  | request (method : String) (params : List JSValue) : WalletEffect

/-- Whether a call is the `eth_sendTransactionBatch` request. -/
def WalletEffect.isBatchRequest : WalletEffect → Bool
  | WalletEffect.request method _ => method == "eth_sendTransactionBatch"
  | WalletEffect.getAddresses => false

/-- The object returned at lines 22-26 of `checkSmartAccountSupport` for the
value of `capabilities`. -/
def supportInfo (capabilities : JSValue) : JSValue :=
  JSValue.object
    [("isSupported", JSValue.bool capabilities.truthy),
     ("capabilities", if capabilities.truthy then capabilities else JSValue.object []),
     ("provider", JSValue.string "MetaMask")]

/-- Source `checkSmartAccountSupport` (smartAccountUtils.js, lines 9-31): the
calls made and the value returned (`walletClient` is `none` when the argument
is falsy). A rejected request is turned into `null` by `.catch`; an exception
of `getAddresses` or of the call itself reaches the `catch` block. -/
def checkSmartAccountSupport (browser : Browser) (walletClient : Option WalletClient) :
    List WalletEffect × JSValue :=
  match walletClient, browser.ethereum with
  | none, _ => ([], JSValue.null)
  | some _, none => ([], JSValue.null)
  | some client, some provider =>
    match client.getAddresses with
    | Except.error _ => ([WalletEffect.getAddresses], JSValue.null)
    | Except.ok addresses =>
      let t := [WalletEffect.getAddresses,
        WalletEffect.request "wallet_getCapabilities" [addresses]]
      match provider.request "wallet_getCapabilities" [addresses] with
      | RequestOutcome.throws _ => (t, JSValue.null)
      | RequestOutcome.rejects _ => (t, supportInfo JSValue.null)
      | RequestOutcome.resolves capabilities => (t, supportInfo capabilities)

/-- Source `batchTransactions` (smartAccountUtils.js, lines 55-78): the calls
made, and the value returned or the message of the error thrown. -/
def batchTransactions (browser : Browser) (walletClient : Option WalletClient)
    (transactions : JSValue) : List WalletEffect × Except String JSValue :=
  match walletClient, browser.ethereum with
  | none, _ => ([], Except.ok JSValue.null)
  | some _, none => ([], Except.ok JSValue.null)
  | some _, some provider =>
    let discovery := checkSmartAccountSupport browser walletClient
    let capabilities := discovery.2
    if ((capabilities.optionalGet "capabilities").optionalGet "batchTransactions").truthy
        = false then
      (discovery.1, Except.error "Batch transactions not supported")
    else
      let t := discovery.1 ++ [WalletEffect.request "eth_sendTransactionBatch" [transactions]]
      match provider.request "eth_sendTransactionBatch" [transactions] with
      | RequestOutcome.throws message => (t, Except.error message)
      | RequestOutcome.rejects message => (t, Except.error message)
      | RequestOutcome.resolves result => (t, Except.ok result)

/-- Capability discovery succeeds with a truthy `batchTransactions` entry. -/
def DiscoverySupports (client : WalletClient) (provider : InjectedProvider) : Prop :=
  ∃ addresses capabilities,
    client.getAddresses = Except.ok addresses ∧
    provider.request "wallet_getCapabilities" [addresses]
      = RequestOutcome.resolves capabilities ∧
    (capabilities.getProperty "batchTransactions").truthy = true

/-- Capability discovery fails (`getAddresses` throws, the request throws or
rejects), or it resolves to a value without a truthy `batchTransactions`
entry (`null` and `undefined` included). -/
def DiscoveryLacks (client : WalletClient) (provider : InjectedProvider) : Prop :=
  (∃ message, client.getAddresses = Except.error message) ∨
  (∃ addresses message, client.getAddresses = Except.ok addresses ∧
    provider.request "wallet_getCapabilities" [addresses] = RequestOutcome.throws message) ∨
  (∃ addresses message, client.getAddresses = Except.ok addresses ∧
    provider.request "wallet_getCapabilities" [addresses] = RequestOutcome.rejects message) ∨
  (∃ addresses capabilities, client.getAddresses = Except.ok addresses ∧
    provider.request "wallet_getCapabilities" [addresses]
      = RequestOutcome.resolves capabilities ∧
    (capabilities.getProperty "batchTransactions").truthy = false)

/-- The value of `capabilities?.capabilities?.batchTransactions` (line 63) for
the value returned by `checkSmartAccountSupport`. -/
def batchEntry (discovered : JSValue) : JSValue :=
  (discovered.optionalGet "capabilities").optionalGet "batchTransactions"

/-! ### Concrete browsers -/

/-- A provider whose capabilities carry a truthy `batchTransactions` entry and
which accepts the batch. -/
def supportingProvider : InjectedProvider :=
  { request := fun method _ =>
      if method = "wallet_getCapabilities" then
        RequestOutcome.resolves (JSValue.object [("batchTransactions", JSValue.bool true)])
      else RequestOutcome.resolves (JSValue.string "0xbatch") }

/-- A provider whose capabilities are keyed by chain id and have no
`batchTransactions` entry. -/
def plainProvider : InjectedProvider :=
  { request := fun method _ =>
      if method = "wallet_getCapabilities" then
        RequestOutcome.resolves (JSValue.object [("0x279f", JSValue.object [])])
      else RequestOutcome.resolves (JSValue.string "0xbatch") }

/-- A wallet client with one address. -/
def sampleClient : WalletClient :=
  { getAddresses := Except.ok (JSValue.array [JSValue.string "0xA"]) }

end SmartAccountUtils

namespace GenerateEntropy

/-! ## Lemmas on `parseInt` -/

theorem hexDigit_range {c : Char} (h : isHexDigit c = true) :
    (0x30 ≤ c.toNat ∧ c.toNat ≤ 0x39) ∨ (0x61 ≤ c.toNat ∧ c.toNat ≤ 0x66) ∨
      (0x41 ≤ c.toNat ∧ c.toNat ≤ 0x46) := by
  unfold isHexDigit hexDigitValue at h
  by_contra hn
  simp only [not_or] at hn
  obtain ⟨h1, h2, h3⟩ := hn
  simp [h1, h2, h3] at h

theorem hexDigit_not_whiteSpace {c : Char} (h : isHexDigit c = true) :
    isJSWhiteSpace c = false := by
  have hr := hexDigit_range h
  unfold isJSWhiteSpace
  simp only [Bool.or_eq_false_iff, decide_eq_false_iff_not, Bool.and_eq_false_iff]
  omega

theorem hexDigit_ne {c d : Char} (h : isHexDigit c = true) (hd : isHexDigit d = false) :
    c ≠ d := by
  rintro rfl
  simp [h] at hd

theorem hexDigitValue_lt {c : Char} {d : Nat} (h : hexDigitValue c = some d) : d < 16 := by
  unfold hexDigitValue at h
  simp only at h
  split at h
  · simp only [Option.some.injEq] at h; omega
  · split at h
    · simp only [Option.some.injEq] at h; omega
    · split at h
      · simp only [Option.some.injEq] at h; omega
      · simp at h

theorem accumulate_foldl (ds : List Nat) (acc : Nat) :
    ds.foldl (fun a d => a * 16 + d) acc
      = acc * 16 ^ ds.length + ds.foldl (fun a d => a * 16 + d) 0 := by
  induction ds generalizing acc with
  | nil => simp
  | cons d ds ih =>
    simp only [List.foldl_cons, List.length_cons]
    rw [ih (acc * 16 + d), ih (0 * 16 + d)]
    ring

theorem takeHexDigits_length {cs : List Char} (h : ∀ c ∈ cs, isHexDigit c = true) :
    (takeHexDigits cs).length = cs.length := by
  induction cs with
  | nil => rfl
  | cons c cs ih =>
    have hc : isHexDigit c = true := h c (List.mem_cons_self _ _)
    obtain ⟨d, hd⟩ := Option.isSome_iff_exists.mp hc
    simp [takeHexDigits, hd, ih (fun x hx => h x (List.mem_cons_of_mem _ hx))]

theorem accumulateHex_takeHexDigits {cs : List Char} (h : ∀ c ∈ cs, isHexDigit c = true) :
    accumulateHex (takeHexDigits cs) = hexNumeral cs := by
  induction cs with
  | nil => rfl
  | cons c cs ih =>
    have hc : isHexDigit c = true := h c (List.mem_cons_self _ _)
    have hcs : ∀ x ∈ cs, isHexDigit x = true := fun x hx => h x (List.mem_cons_of_mem _ hx)
    obtain ⟨d, hd⟩ := Option.isSome_iff_exists.mp hc
    have ih' := ih hcs
    unfold accumulateHex at ih' ⊢
    simp only [takeHexDigits, hd, List.foldl_cons, hexNumeral, Option.getD_some]
    rw [accumulate_foldl, ih', takeHexDigits_length hcs]
    ring

theorem hexNumeral_lt {cs : List Char} (h : ∀ c ∈ cs, isHexDigit c = true) :
    hexNumeral cs < 16 ^ cs.length := by
  induction cs with
  | nil => simp [hexNumeral]
  | cons c cs ih =>
    have hc : isHexDigit c = true := h c (List.mem_cons_self _ _)
    have hcs : ∀ x ∈ cs, isHexDigit x = true := fun x hx => h x (List.mem_cons_of_mem _ hx)
    obtain ⟨d, hd⟩ := Option.isSome_iff_exists.mp hc
    have hlt := hexDigitValue_lt hd
    have ih' := ih hcs
    simp only [hexNumeral, hd, Option.getD_some, List.length_cons, pow_succ]
    have hp : 0 < 16 ^ cs.length := by positivity
    nlinarith

theorem stripHexPrefix_hexDigits {c : Char} {cs : List Char}
    (h : ∀ x ∈ c :: cs, isHexDigit x = true) : stripHexPrefix (c :: cs) = c :: cs := by
  cases cs with
  | nil => rfl
  | cons d rest =>
    have hd : isHexDigit d = true := h d (by simp)
    have h1 : d ≠ 'x' := hexDigit_ne hd (by decide)
    have h2 : d ≠ 'X' := hexDigit_ne hd (by decide)
    simp [stripHexPrefix, h1, h2]

theorem parseInt16_hexDigits {cs : List Char} (hne : cs ≠ [])
    (h : ∀ c ∈ cs, isHexDigit c = true) :
    parseInt16 cs = JSNumber.int (hexNumeral cs : Nat) := by
  cases cs with
  | nil => exact absurd rfl hne
  | cons c rest =>
    have hc : isHexDigit c = true := h c (List.mem_cons_self _ _)
    have hws : isJSWhiteSpace c = false := hexDigit_not_whiteSpace hc
    have h1 : c ≠ '-' := hexDigit_ne hc (by decide)
    have h2 : c ≠ '+' := hexDigit_ne hc (by decide)
    have hlen : (takeHexDigits (c :: rest)).length = (c :: rest).length :=
      takeHexDigits_length h
    have hnil : (takeHexDigits (c :: rest)).isEmpty = false := by
      cases hx : takeHexDigits (c :: rest) with
      | nil => rw [hx] at hlen; simp at hlen
      | cons _ _ => rfl
    unfold parseInt16
    simp only [List.dropWhile_cons, hws, Bool.false_eq_true, if_false, splitSign, h1, h2,
      stripHexPrefix_hexDigits h, hnil, accumulateHex_takeHexDigits h]

theorem slice_txHash {h : String} (hh : IsTxHash h) :
    slice h 2 10 = (h.data.drop 2).take 8 ∧ (h.data.drop 2).take 8 ≠ [] ∧
      ∀ c ∈ (h.data.drop 2).take 8, isHexDigit c = true := by
  obtain ⟨_, hlen, hhex⟩ := hh
  refine ⟨rfl, ?_, fun c hc => hhex c (List.mem_of_mem_take hc)⟩
  intro hnil
  have hl := congrArg List.length hnil
  simp [List.length_take, hlen] at hl

theorem generateRandomFromTxHash_txHash {h : String} (hh : IsTxHash h) :
    generateRandomFromTxHash h
      = JSNumber.int ((hexNumeral ((h.data.drop 2).take 8) % 1000000 : Nat) : Int) := by
  obtain ⟨hs, hne, hhex⟩ := slice_txHash hh
  unfold generateRandomFromTxHash
  simp only [hs, parseInt16_hexDigits hne hhex, jsRem]
  rfl

/-! ## Lemmas on the handler -/

theorem envTruthy_some (k : String) : envTruthy (some k) = false ↔ k = "" := by
  simp [envTruthy]

theorem tryBlock_of_confirmed {w : World} {defaultProvider : String} {fee : Nat}
    {key walletAddress : String} {balance : Nat} {tx : TransactionResponse}
    {receipt : TransactionReceipt}
    (h : Confirmed w defaultProvider fee key walletAddress balance tx receipt) :
    tryBlock w = (confirmedTrace w defaultProvider fee key walletAddress tx,
      Except.ok (buildProof w (w.randomBytes 32) tx receipt)) := by
  obtain ⟨code, hc, hne⟩ := h.codeDeployed
  have hk : ¬ envTruthy (some key) = false := by
    rw [envTruthy_some]; exact h.keyNonEmpty
  have hb : ¬ balance < fee := Nat.not_lt.mpr h.funded
  simp [tryBlock, hc, hne, h.providerRead, h.feeRead, h.keySet, hk, h.walletBuilt,
    h.balanceRead, hb, h.submitted, h.mined, confirmedTrace]

theorem tryBlock_ok_inv {w : World} {t : List Effect} {p : EntropyProof}
    (h : tryBlock w = (t, Except.ok p)) :
    ∃ defaultProvider fee key walletAddress balance tx receipt,
      Confirmed w defaultProvider fee key walletAddress balance tx receipt ∧
      t = confirmedTrace w defaultProvider fee key walletAddress tx ∧
      p = buildProof w (w.randomBytes 32) tx receipt := by
  unfold tryBlock at h
  simp only [thrown] at h
  split at h
  · simp at h
  rename_i code hcode
  split at h
  · simp at h
  rename_i hne
  split at h
  · simp at h
  rename_i defaultProvider hprov
  split at h
  · simp at h
  rename_i fee hfee
  split at h
  · simp at h
  rename_i key hkey
  split at h
  · simp at h
  rename_i hk
  split at h
  · simp at h
  rename_i walletAddress hwallet
  split at h
  · simp at h
  rename_i balance hbal
  split at h
  · simp at h
  rename_i hfund
  split at h
  · simp at h
  rename_i tx htx
  split at h
  · simp at h
  rename_i receipt hrec
  simp only [Prod.mk.injEq, Except.ok.injEq] at h
  refine ⟨defaultProvider, fee, key, walletAddress, balance, tx, receipt, ?_, ?_, h.2.symm⟩
  · exact ⟨⟨⟨⟨code, hcode, hne⟩, hprov, hfee⟩, hkey,
      fun hh => hk ((envTruthy_some key).mpr hh), hwallet, hbal⟩, Nat.not_lt.mp hfund, htx, hrec⟩
  · rw [← h.1]; simp [confirmedTrace]

theorem POST_of_ok {w : World} {t : List Effect} {p : EntropyProof}
    (h : tryBlock w = (t, Except.ok p)) :
    POST w = (t, { status := 200
                   body := { success := true, randomValue := some p.randomValue,
                             entropyProof := some p, error := none } }) := by
  simp [POST, h]

theorem POST_of_error {w : World} {t : List Effect} {e : HandlerError}
    (h : tryBlock w = (t, Except.error e)) :
    POST w = (t, { status := 500
                   body := { success := false, randomValue := none,
                             entropyProof := none, error := some e.message } }) := by
  simp [POST, h]

theorem POST_success_inv {w : World} (h : (POST w).2.body.success = true) :
    ∃ t p, tryBlock w = (t, Except.ok p) := by
  rcases hr : tryBlock w with ⟨t, r⟩
  cases r with
  | error e => rw [POST_of_error hr] at h; simp at h
  | ok p => exact ⟨t, p, rfl⟩

theorem POST_trace (w : World) : (POST w).1 = (tryBlock w).1 := by
  rcases hr : tryBlock w with ⟨t, r⟩
  cases r with
  | error e => rw [POST_of_error hr]
  | ok p => rw [POST_of_ok hr]

theorem tryBlock_undeployed {w : World}
    (h : w.getCode PYTH_ENTROPY_ADDRESS = Except.ok "0x") :
    tryBlock w = ([Effect.getCode PYTH_ENTROPY_ADDRESS],
      Except.error HandlerError.contractNotFound) := by
  simp [tryBlock, h]

theorem tryBlock_keyless {w : World} {defaultProvider : String} {fee : Nat}
    (h : ReadsSucceed w defaultProvider fee) (hk : envTruthy (privateKey w) = false) :
    tryBlock w = ([Effect.getCode PYTH_ENTROPY_ADDRESS, Effect.getDefaultProvider,
      Effect.getFee defaultProvider], Except.error HandlerError.missingCredential) := by
  obtain ⟨code, hc, hne⟩ := h.codeDeployed
  cases hp : privateKey w with
  | none => simp [tryBlock, hc, hne, h.providerRead, h.feeRead, hp]
  | some key =>
    rw [hp] at hk
    simp [tryBlock, hc, hne, h.providerRead, h.feeRead, hp, hk]

theorem tryBlock_unfunded {w : World} {defaultProvider : String} {fee : Nat}
    {key walletAddress : String} {balance : Nat}
    (h : BalanceRead w defaultProvider fee key walletAddress balance) (hlt : balance < fee) :
    tryBlock w = (balanceTrace defaultProvider key walletAddress,
      Except.error (HandlerError.insufficientBalance fee balance walletAddress)) := by
  obtain ⟨code, hc, hne⟩ := h.codeDeployed
  have hk : ¬ envTruthy (some key) = false := by
    rw [envTruthy_some]; exact h.keyNonEmpty
  simp [tryBlock, hc, hne, h.providerRead, h.feeRead, h.keySet, hk, h.walletBuilt,
    h.balanceRead, hlt, balanceTrace]

theorem tryBlock_funded {w : World} {defaultProvider : String} {fee : Nat}
    {key walletAddress : String} {balance : Nat}
    (h : BalanceRead w defaultProvider fee key walletAddress balance) (hle : fee ≤ balance) :
    submissions (tryBlock w).1
        = [Effect.requestWithCallback defaultProvider (w.randomBytes 32) fee 700000] ∧
      ∀ f b a, (tryBlock w).2 ≠ Except.error (HandlerError.insufficientBalance f b a) := by
  obtain ⟨code, hc, hne⟩ := h.codeDeployed
  have hk : ¬ envTruthy (some key) = false := by
    rw [envTruthy_some]; exact h.keyNonEmpty
  have hb : ¬ balance < fee := Nat.not_lt.mpr hle
  cases hs : w.requestWithCallback defaultProvider (w.randomBytes 32) fee 700000 with
  | error m =>
    simp [tryBlock, hc, hne, h.providerRead, h.feeRead, h.keySet, hk, h.walletBuilt,
      h.balanceRead, hb, hs, thrown, submissions, Effect.isSubmission, List.filter]
  | ok tx =>
    cases hm : w.wait tx with
    | error m =>
      simp [tryBlock, hc, hne, h.providerRead, h.feeRead, h.keySet, hk, h.walletBuilt,
        h.balanceRead, hb, hs, hm, thrown, submissions, Effect.isSubmission, List.filter]
    | ok receipt =>
      simp [tryBlock, hc, hne, h.providerRead, h.feeRead, h.keySet, hk, h.walletBuilt,
        h.balanceRead, hb, hs, hm, submissions, Effect.isSubmission, List.filter]

theorem insufficient_message_head (f b : Nat) (a : String) :
    (HandlerError.insufficientBalance f b a).message.data.head? = some 'I' := by
  simp [HandlerError.message, String.data_append]

theorem insufficient_ne_contractNotFound (f b : Nat) (a : String) :
    HandlerError.contractNotFound.message ≠ (HandlerError.insufficientBalance f b a).message := by
  intro h
  have h1 := insufficient_message_head f b a
  rw [← h] at h1
  revert h1
  decide

theorem insufficient_ne_missingCredential (f b : Nat) (a : String) :
    HandlerError.missingCredential.message ≠ (HandlerError.insufficientBalance f b a).message := by
  intro h
  have h1 := insufficient_message_head f b a
  rw [← h] at h1
  revert h1
  decide

theorem tryBlock_submissions_le (w : World) : (submissions (tryBlock w).1).length ≤ 1 := by
  unfold tryBlock
  simp only [thrown]
  repeat' split
  all_goals simp [submissions, Effect.isSubmission, List.filter]

theorem tryBlock_keyed {w : World} {defaultProvider : String} {fee : Nat} {key : String}
    (h : ReadsSucceed w defaultProvider fee) (hk : privateKey w = some key) (hne : key ≠ "") :
    (tryBlock w).1.filter Effect.isNewWallet = [Effect.newWallet key] ∧
      (tryBlock w).2 ≠ Except.error HandlerError.missingCredential := by
  obtain ⟨code, hc, hcne⟩ := h.codeDeployed
  have hkt : ¬ envTruthy (some key) = false := by
    rw [envTruthy_some]; exact hne
  unfold tryBlock
  simp only [thrown, hc, hcne, h.providerRead, h.feeRead, hk, if_neg hkt, if_false]
  repeat' split
  all_goals simp [Effect.isNewWallet, List.filter]

theorem scanLogs_none {parseLog : Log → ParseLogResult} {logs : List Log}
    (h : ∀ log ∈ logs, ∀ d, parseLog log = ParseLogResult.description d →
      matchesRequest d = false) :
    scanLogs parseLog logs = none := by
  induction logs with
  | nil => rfl
  | cons log rest ih =>
    have ih' := ih (fun l hl => h l (List.mem_cons_of_mem _ hl))
    unfold scanLogs
    cases hp : parseLog log with
    | throws => simpa using ih'
    | null => simpa using ih'
    | description d =>
      have hm := h log (List.mem_cons_self _ _) d hp
      simpa [hm] using ih'

theorem scanLogs_append {parseLog : Log → ParseLogResult} {pre : List Log} (rest : List Log)
    (h : ∀ log ∈ pre, ∀ d, parseLog log = ParseLogResult.description d →
      matchesRequest d = false) :
    scanLogs parseLog (pre ++ rest) = scanLogs parseLog rest := by
  induction pre with
  | nil => rfl
  | cons log pre ih =>
    have ih' := ih (fun l hl => h l (List.mem_cons_of_mem _ hl))
    cases hp : parseLog log with
    | throws => simpa only [List.cons_append, scanLogs, hp] using ih'
    | null => simpa only [List.cons_append, scanLogs, hp] using ih'
    | description d =>
      have hm := h log (List.mem_cons_self _ _) d hp
      simpa [scanLogs, hp, hm] using ih'

theorem sampleWorld_confirmed :
    Confirmed (sampleWorld 1000 2000) "0xP" 1000 "k1" "0xW" 2000 { hash := sampleHash }
      { blockNumber := 42, logs := [foreignLog, requestLog] } :=
  ⟨⟨⟨⟨"0x6080", rfl, by decide⟩, rfl, rfl⟩, by decide, by decide, rfl, rfl⟩,
    by decide, rfl, rfl⟩

theorem sampleWorld_abiConformant (fee balance : Nat) :
    AbiConformant (sampleWorld fee balance) := by
  intro log d h
  by_cases hl : log = requestLog
  · simp only [sampleWorld, hl, if_true, ParseLogResult.description.injEq] at h
    rw [← h]
    simp [PYTH_ENTROPY_ABI_EVENTS]
  · simp [sampleWorld, hl] at h

theorem silentWorld_confirmed :
    Confirmed silentWorld "0xP" 1000 "k1" "0xW" 2000 { hash := sampleHash }
      { blockNumber := 42, logs := [foreignLog, brokenLog] } :=
  ⟨⟨⟨⟨"0x6080", rfl, by decide⟩, rfl, rfl⟩, by decide, by decide, rfl, rfl⟩,
    by decide, rfl, rfl⟩

theorem envTruthy_privateKey (w : World) :
    envTruthy (privateKey w) = false ↔
      envTruthy (w.env "MONAD_TREASURY_PRIVATE_KEY") = false ∧
        envTruthy (w.env "TREASURY_PRIVATE_KEY") = false := by
  unfold privateKey jsOr
  by_cases h : envTruthy (w.env "MONAD_TREASURY_PRIVATE_KEY") = true
  · simp [h]
  · simp only [h, if_false]
    have h0 : envTruthy (w.env "MONAD_TREASURY_PRIVATE_KEY") = false := by simpa using h
    simp [h0]

theorem envTruthy_true_inv {v : Option String} (h : envTruthy v = true) :
    ∃ k, v = some k ∧ k ≠ "" := by
  cases v with
  | none => simp [envTruthy] at h
  | some k => exact ⟨k, rfl, by simpa [envTruthy] using h⟩

theorem fallbackWorld_reads : ReadsSucceed fallbackWorld "0xP" 1000 :=
  ⟨⟨"0x6080", rfl, by decide⟩, rfl, rfl⟩

theorem hexDigitValue_hexChar : ∀ n, n < 16 → hexDigitValue (hexChar n) = some n := by
  decide

theorem hexlify_body_length (bytes : List (Fin 256)) :
    (bytes.flatMap (fun b => [hexChar (b.val / 16), hexChar (b.val % 16)])).length
      = 2 * bytes.length := by
  induction bytes with
  | nil => rfl
  | cons b bs ih =>
    simp only [List.flatMap_cons, List.length_append, ih, List.length_cons, List.length_nil]
    omega

theorem hexlify_body_hex (bytes : List (Fin 256)) :
    ∀ c ∈ bytes.flatMap (fun b => [hexChar (b.val / 16), hexChar (b.val % 16)]),
      isHexDigit c = true := by
  intro c hc
  simp only [List.mem_flatMap, List.mem_cons, List.mem_singleton, List.not_mem_nil,
    or_false] at hc
  obtain ⟨b, _, hb⟩ := hc
  have h1 : b.val / 16 < 16 := by omega
  have h2 : b.val % 16 < 16 := by omega
  rcases hb with rfl | rfl
  · simp [isHexDigit, hexDigitValue_hexChar _ h1]
  · simp [isHexDigit, hexDigitValue_hexChar _ h2]

theorem decodeHexBytes_hexlify_body (bytes : List (Fin 256)) :
    decodeHexBytes (bytes.flatMap (fun b => [hexChar (b.val / 16), hexChar (b.val % 16)]))
      = bytes.map Fin.val := by
  induction bytes with
  | nil => rfl
  | cons b bs ih =>
    have h1 : b.val / 16 < 16 := by omega
    have h2 : b.val % 16 < 16 := by omega
    simp only [List.flatMap_cons, List.cons_append, List.nil_append, decodeHexBytes, ih,
      List.map_cons, hexNumeral, hexDigitValue_hexChar _ h1, hexDigitValue_hexChar _ h2,
      Option.getD_some, List.length_cons, List.length_nil]
    congr 1
    omega

/-! ## The placeholder random value -/

/-- C1: for every transaction hash `h` (`0x` followed by 64 hexadecimal
digits), `generateRandomFromTxHash h` is the unsigned integer denoted by the 8
hexadecimal digits `h[2..10)`, reduced modulo 1000000; and on every successful
run of `POST` the top-level `randomValue` and `entropyProof.randomValue` both
equal `generateRandomFromTxHash entropyProof.transactionHash`. -/
theorem randomValue_rederivable :
    (∀ h : String, IsTxHash h →
      generateRandomFromTxHash h
        = JSNumber.int ((hexNumeral ((h.data.drop 2).take 8) % 1000000 : Nat) : Int)) ∧
    (∀ w : World, (POST w).2.body.success = true →
      ∃ p, (POST w).2.body.entropyProof = some p ∧
        (POST w).2.body.randomValue = some (generateRandomFromTxHash p.transactionHash) ∧
        p.randomValue = generateRandomFromTxHash p.transactionHash) := by
  refine ⟨fun h hh => generateRandomFromTxHash_txHash hh, fun w hw => ?_⟩
  obtain ⟨t, p, hp⟩ := POST_success_inv hw
  obtain ⟨_, _, _, _, _, tx, receipt, _, _, rfl⟩ := tryBlock_ok_inv hp
  rw [POST_of_ok hp]
  exact ⟨_, rfl, rfl, rfl⟩

/-- Witness of C1 at `sampleHash` and at a funded run of `sampleWorld`. -/
theorem randomValue_rederivable_witness :
    IsTxHash sampleHash ∧
    generateRandomFromTxHash sampleHash
      = JSNumber.int ((hexNumeral ((sampleHash.data.drop 2).take 8) % 1000000 : Nat) : Int) ∧
    (POST (sampleWorld 1000 2000)).2.body.success = true ∧
    ∃ p, (POST (sampleWorld 1000 2000)).2.body.entropyProof = some p ∧
      (POST (sampleWorld 1000 2000)).2.body.randomValue
        = some (generateRandomFromTxHash p.transactionHash) ∧
      p.randomValue = generateRandomFromTxHash p.transactionHash :=
  ⟨by decide, randomValue_rederivable.1 sampleHash (by decide), by decide,
    randomValue_rederivable.2 (sampleWorld 1000 2000) (by decide)⟩

/-- C2 as stated fails: the hash `sampleHash` is well formed and its
placeholder value is 999999, which is not below 999999. -/
theorem randomValue_below_999999_fails :
    ¬ (∀ h : String, IsTxHash h →
        ∃ v : Int, generateRandomFromTxHash h = JSNumber.int v ∧ 0 ≤ v ∧ v < 999999) := by
  intro hall
  obtain ⟨v, hv, _, hlt⟩ := hall sampleHash (by decide)
  have h9 : generateRandomFromTxHash sampleHash = JSNumber.int 999999 := by decide
  rw [h9] at hv
  injection hv with hv
  omega

/-- C2, amended: for every transaction hash `h` (`0x` followed by 64
hexadecimal digits), the placeholder `generateRandomFromTxHash h` is an integer
`v` with `0 ≤ v ≤ 999999`, that is, it lies in `[0, 1000000)`. -/
theorem randomValue_range (h : String) (hh : IsTxHash h) :
    ∃ v : Int, generateRandomFromTxHash h = JSNumber.int v ∧ 0 ≤ v ∧ v ≤ 999999 := by
  refine ⟨_, generateRandomFromTxHash_txHash hh, Int.ofNat_nonneg _, ?_⟩
  have hlt : hexNumeral ((h.data.drop 2).take 8) % 1000000 < 1000000 :=
    Nat.mod_lt _ (by norm_num)
  omega

/-- Witness of the amended C2 at `sampleHash`, where the bound is attained. -/
theorem randomValue_range_witness :
    IsTxHash sampleHash ∧
    ∃ v : Int, generateRandomFromTxHash sampleHash = JSNumber.int v ∧ 0 ≤ v ∧ v ≤ 999999 :=
  ⟨by decide, randomValue_range sampleHash (by decide)⟩

/-! ## Preconditions -/

/-- C3: whenever the code at the configured contract address is empty
(`getCode` returns `0x`), `POST` fails with ContractNotFound: the error thrown
is the one of line 29, the response has status 500 and an error message naming
the contract address, and the run contains no `requestWithCallback`
submission, whatever the credential, the fee and the balance are. -/
theorem contractNotFound_of_empty_code (w : World)
    (h : w.getCode PYTH_ENTROPY_ADDRESS = Except.ok "0x") :
    (tryBlock w).2 = Except.error HandlerError.contractNotFound ∧
    (POST w).2 =
      { status := 500
        body := { success := false, randomValue := none, entropyProof := none
                  error := some
                    "No contract found at address 0x36825bf3fbdf5a29e2d5148bfe7dcf7b5639e320 on Monad Testnet" } } ∧
    submissions (POST w).1 = [] ∧
    (POST w).1 = [Effect.getCode PYTH_ENTROPY_ADDRESS] := by
  have ht := tryBlock_undeployed h
  have hp := POST_of_error ht
  refine ⟨by rw [ht], ?_, ?_, by rw [hp]⟩
  · rw [hp]; rfl
  · rw [hp]; rfl

/-- Witness of C3 at `undeployedWorld`. -/
theorem contractNotFound_of_empty_code_witness :
    undeployedWorld.getCode PYTH_ENTROPY_ADDRESS = Except.ok "0x" ∧
    (tryBlock undeployedWorld).2 = Except.error HandlerError.contractNotFound ∧
    submissions (POST undeployedWorld).1 = [] :=
  ⟨rfl, (contractNotFound_of_empty_code undeployedWorld rfl).1,
    (contractNotFound_of_empty_code undeployedWorld rfl).2.2.1⟩

/-- C4: when the contract is deployed, a credential is present, and the fee
and the signer balance are read, `POST` fails with InsufficientBalance without
any `requestWithCallback` submission if and only if `balance < fee`; in that
case the response has status 500 and its message carries `formatEther fee`
and `formatEther balance`; when `fee ≤ balance` (equality included) the run
submits the request. -/
theorem insufficientBalance_iff (w : World) (defaultProvider : String) (fee : Nat)
    (key walletAddress : String) (balance : Nat)
    (h : BalanceRead w defaultProvider fee key walletAddress balance) :
    (((tryBlock w).2
          = Except.error (HandlerError.insufficientBalance fee balance walletAddress) ∧
        submissions (POST w).1 = []) ↔ balance < fee) ∧
    (balance < fee →
      (POST w).2 =
        { status := 500
          body := { success := false, randomValue := none, entropyProof := none
                    error := some ("Insufficient balance. Need " ++ formatEther fee
                      ++ " MON, have " ++ formatEther balance
                      ++ " MON. Please add more MON to treasury: " ++ walletAddress) } }) ∧
    (fee ≤ balance →
      submissions (POST w).1
        = [Effect.requestWithCallback defaultProvider (w.randomBytes 32) fee 700000]) := by
  refine ⟨⟨fun hl => ?_, fun hlt => ?_⟩, fun hlt => ?_, fun hle => ?_⟩
  · by_contra hnot
    have hf := tryBlock_funded h (Nat.not_lt.mp hnot)
    exact hf.2 fee balance walletAddress hl.1
  · have ht := tryBlock_unfunded h hlt
    refine ⟨by rw [ht], ?_⟩
    rw [POST_trace, ht]
    rfl
  · rw [POST_of_error (tryBlock_unfunded h hlt)]
    rfl
  · rw [POST_trace]
    exact (tryBlock_funded h hle).1

/-- Witness of C4 at fee 1000 and balance 500: the message shows both amounts
in MON. -/
theorem insufficientBalance_iff_witness :
    BalanceRead (sampleWorld 1000 500) "0xP" 1000 "k1" "0xW" 500 ∧
    (500 < 1000) ∧
    (POST (sampleWorld 1000 500)).2.body.error
      = some ("Insufficient balance. Need 0.000000000000001 MON, have 0.0000000000000005 MON."
          ++ " Please add more MON to treasury: 0xW") ∧
    submissions (POST (sampleWorld 1000 500)).1 = [] :=
  have hb : BalanceRead (sampleWorld 1000 500) "0xP" 1000 "k1" "0xW" 500 :=
    ⟨⟨⟨"0x6080", rfl, by decide⟩, rfl, rfl⟩, by decide, by decide, rfl, rfl⟩
  ⟨hb, by decide,
    (congrArg (fun r => r.body.error)
      ((insufficientBalance_iff (sampleWorld 1000 500) "0xP" 1000 "k1" "0xW" 500 hb).2.1
        (by decide))).trans (by decide),
    (((insufficientBalance_iff (sampleWorld 1000 500) "0xP" 1000 "k1" "0xW" 500 hb).1).mpr
      (by decide)).2⟩

/-- C5: the preconditions are checked in the order contract code, credential,
balance. When `getCode`, `getDefaultProvider` and `getFee` succeed: an empty
code gives ContractNotFound whatever the credential and the balance are; a
deployed code without a credential gives MissingCredential whatever the
balance is; and InsufficientBalance is reported only when the code is deployed
and a credential is set. -/
theorem precondition_order (w : World) (code defaultProvider : String) (fee : Nat)
    (hc : w.getCode PYTH_ENTROPY_ADDRESS = Except.ok code)
    (hp : w.getDefaultProvider = Except.ok defaultProvider)
    (hf : w.getFee defaultProvider = Except.ok fee) :
    (code = "0x" →
      (tryBlock w).2 = Except.error HandlerError.contractNotFound ∧
      (POST w).2.body.error = some HandlerError.contractNotFound.message) ∧
    (code ≠ "0x" → envTruthy (privateKey w) = false →
      (tryBlock w).2 = Except.error HandlerError.missingCredential ∧
      (POST w).2.body.error = some HandlerError.missingCredential.message) ∧
    (∀ f b a,
      ((tryBlock w).2 = Except.error (HandlerError.insufficientBalance f b a) ∨
        (POST w).2.body.error = some (HandlerError.insufficientBalance f b a).message) →
      code ≠ "0x" ∧ envTruthy (privateKey w) = true) := by
  refine ⟨fun h0 => ?_, fun hne hk => ?_, fun f b a hib => ?_⟩
  · subst h0
    have ht := tryBlock_undeployed hc
    exact ⟨by rw [ht], by rw [POST_of_error ht]⟩
  · have ht := tryBlock_keyless (ReadsSucceed.mk ⟨code, hc, hne⟩ hp hf) hk
    exact ⟨by rw [ht], by rw [POST_of_error ht]⟩
  · constructor
    · rintro rfl
      have ht := tryBlock_undeployed hc
      rcases hib with h1 | h1
      · rw [ht] at h1; simp at h1
      · rw [POST_of_error ht] at h1
        exact insufficient_ne_contractNotFound f b a (Option.some.inj h1)
    · by_contra hk
      have hk : envTruthy (privateKey w) = false := by simpa using hk
      by_cases hne : code = "0x"
      · subst hne
        have ht := tryBlock_undeployed hc
        rcases hib with h1 | h1
        · rw [ht] at h1; simp at h1
        · rw [POST_of_error ht] at h1
          exact insufficient_ne_contractNotFound f b a (Option.some.inj h1)
      · have ht := tryBlock_keyless (ReadsSucceed.mk ⟨code, hc, hne⟩ hp hf) hk
        rcases hib with h1 | h1
        · rw [ht] at h1; simp at h1
        · rw [POST_of_error ht] at h1
          exact insufficient_ne_missingCredential f b a (Option.some.inj h1)

/-- Witness of C5: with empty code, no credential and a balance below the fee
the error is ContractNotFound; with deployed code, no credential and a balance
below the fee it is MissingCredential. -/
theorem precondition_order_witness :
    (tryBlock undeployedWorld).2 = Except.error HandlerError.contractNotFound ∧
    (tryBlock keylessWorld).2 = Except.error HandlerError.missingCredential :=
  ⟨((precondition_order undeployedWorld "0x" "0xP" 1000 rfl rfl rfl).1 rfl).1,
    ((precondition_order keylessWorld "0x6080" "0xP" 1000 rfl rfl rfl).2.1
      (by decide) (by decide)).1⟩

/-! ## Submission -/

/-- C6: every run of `POST` that returns a success response contains exactly
one `requestWithCallback` submission; its provider is the address returned by
`getDefaultProvider`, its paid value is the fee returned by `getFee` for that
provider, and its gas limit is 700000. No run of `POST`, successful or
failing, contains more than one submission. -/
theorem single_submission :
    (∀ w : World, (POST w).2.body.success = true →
      ∃ defaultProvider fee,
        w.getDefaultProvider = Except.ok defaultProvider ∧
        w.getFee defaultProvider = Except.ok fee ∧
        submissions (POST w).1
          = [Effect.requestWithCallback defaultProvider (w.randomBytes 32) fee 700000]) ∧
    (∀ w : World, (submissions (POST w).1).length ≤ 1) := by
  refine ⟨fun w hw => ?_, fun w => ?_⟩
  · obtain ⟨t, p, hp⟩ := POST_success_inv hw
    obtain ⟨defaultProvider, fee, key, walletAddress, balance, tx, receipt, hc, rfl, _⟩ :=
      tryBlock_ok_inv hp
    refine ⟨defaultProvider, fee, hc.providerRead, hc.feeRead, ?_⟩
    rw [POST_of_ok hp]
    rfl
  · rw [POST_trace]
    exact tryBlock_submissions_le w

/-- Witness of C6 at a funded run of `sampleWorld`. -/
theorem single_submission_witness :
    (POST (sampleWorld 1000 2000)).2.body.success = true ∧
    ∃ defaultProvider fee,
      (sampleWorld 1000 2000).getDefaultProvider = Except.ok defaultProvider ∧
      (sampleWorld 1000 2000).getFee defaultProvider = Except.ok fee ∧
      submissions (POST (sampleWorld 1000 2000)).1
        = [Effect.requestWithCallback defaultProvider
            ((sampleWorld 1000 2000).randomBytes 32) fee 700000] :=
  ⟨by decide, single_submission.1 (sampleWorld 1000 2000) (by decide)⟩

/-! ## Sequence number -/

/-- C7: for every confirmed receipt none of whose log entries passes the test
of line 95 (the decoder throws, returns `null`, or returns a description that
is not of the `Request` event and has no truthy sequence number; the empty log
list included), `POST` succeeds with status 200 and
`entropyProof.sequenceNumber` is the string `"0"`. With the interface of
`PYTH_ENTROPY_ABI` these are the receipts without a `Request` entry. -/
theorem sequenceNumber_default (w : World) (defaultProvider : String) (fee : Nat)
    (key walletAddress : String) (balance : Nat) (tx : TransactionResponse)
    (receipt : TransactionReceipt)
    (h : Confirmed w defaultProvider fee key walletAddress balance tx receipt)
    (hlogs : ∀ log ∈ receipt.logs, ∀ d, w.parseLog log = ParseLogResult.description d →
      matchesRequest d = false) :
    (POST w).2.status = 200 ∧ (POST w).2.body.success = true ∧
    ∃ p, (POST w).2.body.entropyProof = some p ∧ p.sequenceNumber = "0" := by
  rw [POST_of_ok (tryBlock_of_confirmed h)]
  refine ⟨rfl, rfl, _, rfl, ?_⟩
  simp only [buildProof, scanLogs_none hlogs, defaultSequenceNumber]
  rfl

/-- Witness of C7 at `silentWorld`, whose receipt holds a foreign log and a
log whose decoding throws. -/
theorem sequenceNumber_default_witness :
    Confirmed silentWorld "0xP" 1000 "k1" "0xW" 2000 { hash := sampleHash }
      { blockNumber := 42, logs := [foreignLog, brokenLog] } ∧
    (POST silentWorld).2.status = 200 ∧ (POST silentWorld).2.body.success = true ∧
    ∃ p, (POST silentWorld).2.body.entropyProof = some p ∧ p.sequenceNumber = "0" :=
  ⟨silentWorld_confirmed,
    sequenceNumber_default silentWorld "0xP" 1000 "k1" "0xW" 2000 { hash := sampleHash }
      { blockNumber := 42, logs := [foreignLog, brokenLog] } silentWorld_confirmed
      (by
        intro log hl d hd
        by_cases hb : log = brokenLog
        · simp [silentWorld, hb] at hd
        · simp [silentWorld, hb] at hd)⟩

/-- C8: for every successful run, with the interface of `PYTH_ENTROPY_ABI`,
whose receipt logs contain an entry decoded as the `Request` event with
sequence number `n` (0 included) and no earlier entry decoded as `Request`,
`entropyProof.sequenceNumber` is the decimal string of `n`,
`entropyProof.blockNumber` is the decimal string of the block number of the
receipt, and `entropyProof.source` is the fixed label. -/
theorem sequenceNumber_first_request (w : World) (defaultProvider : String) (fee : Nat)
    (key walletAddress : String) (balance : Nat) (tx : TransactionResponse)
    (receipt : TransactionReceipt)
    (h : Confirmed w defaultProvider fee key walletAddress balance tx receipt)
    (habi : AbiConformant w) (pre post : List Log) (log : Log) (n : Nat)
    (hlogs : receipt.logs = pre ++ log :: post)
    (hpre : ∀ l ∈ pre, ∀ d, w.parseLog l = ParseLogResult.description d →
      d.name ≠ "Request")
    (hlog : w.parseLog log
      = ParseLogResult.description { name := "Request", sequenceNumber := some n }) :
    (POST w).2.body.success = true ∧
    ∃ p, (POST w).2.body.entropyProof = some p ∧
      p.sequenceNumber = decimalString n ∧
      p.blockNumber = decimalString receipt.blockNumber ∧
      p.source = "Pyth Entropy V1 (Monad Testnet)" := by
  rw [POST_of_ok (tryBlock_of_confirmed h)]
  refine ⟨rfl, _, rfl, ?_, rfl, rfl⟩
  have hskip : ∀ l ∈ pre, ∀ d, w.parseLog l = ParseLogResult.description d →
      matchesRequest d = false := by
    intro l hl d hd
    have hname := habi l d hd
    simp only [PYTH_ENTROPY_ABI_EVENTS, List.mem_singleton] at hname
    exact absurd hname (hpre l hl d hd)
  have hscan : scanLogs w.parseLog receipt.logs = some n := by
    rw [hlogs, scanLogs_append _ hskip]
    simp [scanLogs, hlog, matchesRequest]
  simp only [buildProof, hscan, defaultSequenceNumber]
  by_cases hn : n = 0
  · simp [hn]
  · simp [hn]

/-- Witness of C8: sequence number 7 at block 42 yields `"7"` and `"42"`. -/
theorem sequenceNumber_first_request_witness :
    (POST (sampleWorld 1000 2000)).2.body.success = true ∧
    ∃ p, (POST (sampleWorld 1000 2000)).2.body.entropyProof = some p ∧
      p.sequenceNumber = "7" ∧ p.blockNumber = "42" ∧
      p.source = "Pyth Entropy V1 (Monad Testnet)" :=
  sequenceNumber_first_request (sampleWorld 1000 2000) "0xP" 1000 "k1" "0xW" 2000
    { hash := sampleHash } { blockNumber := 42, logs := [foreignLog, requestLog] }
    sampleWorld_confirmed (sampleWorld_abiConformant 1000 2000) [foreignLog] [] requestLog 7
    rfl
    (by
      intro l hl d hd
      simp only [List.mem_singleton] at hl
      subst hl
      simp [sampleWorld, foreignLog, requestLog] at hd)
    (by simp [sampleWorld])

/-! ## Failure responses -/

theorem tryBlockRaw_eq_tryBlock (rw : RawWorld) (h : ThrowsErrors rw) :
    tryBlockRaw rw
      = ((tryBlock rw.toWorld).1,
          match (tryBlock rw.toWorld).2 with
          | Except.ok p => Except.ok p
          | Except.error e => Except.error e.thrown) := by
  rcases hc : rw.getCode PYTH_ENTROPY_ADDRESS with e | code
  · obtain ⟨m, rfl⟩ := h.getCode _ e hc
    simp [tryBlockRaw, tryBlock, thrown, RawWorld.toWorld, textResult, Thrown.text,
      HandlerError.thrown, HandlerError.message, hc]
  by_cases h0 : code = "0x"
  · simp [tryBlockRaw, tryBlock, RawWorld.toWorld, textResult, hc, h0]
  rcases hp : rw.getDefaultProvider with e | defaultProvider
  · obtain ⟨m, rfl⟩ := h.getDefaultProvider e hp
    simp [tryBlockRaw, tryBlock, thrown, RawWorld.toWorld, textResult, Thrown.text,
      HandlerError.thrown, HandlerError.message, hc, h0, hp]
  rcases hf : rw.getFee defaultProvider with e | fee
  · obtain ⟨m, rfl⟩ := h.getFee _ e hf
    simp [tryBlockRaw, tryBlock, thrown, RawWorld.toWorld, textResult, Thrown.text,
      HandlerError.thrown, HandlerError.message, hc, h0, hp, hf]
  rcases hk : jsOr (rw.env "MONAD_TREASURY_PRIVATE_KEY") (rw.env "TREASURY_PRIVATE_KEY")
    with _ | key
  · simp [tryBlockRaw, tryBlock, privateKey, RawWorld.toWorld, textResult, hc, h0, hp, hf, hk]
  by_cases hkt : envTruthy (some key) = false
  · simp [tryBlockRaw, tryBlock, privateKey, RawWorld.toWorld, textResult, hc, h0, hp, hf, hk,
      hkt]
  rcases hw : rw.newWallet key with e | walletAddress
  · obtain ⟨m, rfl⟩ := h.newWallet _ e hw
    simp [tryBlockRaw, tryBlock, thrown, privateKey, RawWorld.toWorld, textResult, Thrown.text,
      HandlerError.thrown, HandlerError.message, hc, h0, hp, hf, hk, hkt, hw]
  rcases hb : rw.getBalance walletAddress with e | balance
  · obtain ⟨m, rfl⟩ := h.getBalance _ e hb
    simp [tryBlockRaw, tryBlock, thrown, privateKey, RawWorld.toWorld, textResult, Thrown.text,
      HandlerError.thrown, HandlerError.message, hc, h0, hp, hf, hk, hkt, hw, hb]
  by_cases hlt : balance < fee
  · simp [tryBlockRaw, tryBlock, privateKey, RawWorld.toWorld, textResult, hc, h0, hp, hf, hk,
      hkt, hw, hb, hlt]
  rcases hs : rw.requestWithCallback defaultProvider (rw.randomBytes 32) fee 700000
    with e | tx
  · obtain ⟨m, rfl⟩ := h.requestWithCallback _ _ _ _ e hs
    simp [tryBlockRaw, tryBlock, thrown, privateKey, RawWorld.toWorld, textResult, Thrown.text,
      HandlerError.thrown, HandlerError.message, hc, h0, hp, hf, hk, hkt, hw, hb, hlt, hs]
  rcases hm : rw.wait tx with e | receipt
  · obtain ⟨m, rfl⟩ := h.wait _ e hm
    simp [tryBlockRaw, tryBlock, thrown, privateKey, RawWorld.toWorld, textResult, Thrown.text,
      HandlerError.thrown, HandlerError.message, hc, h0, hp, hf, hk, hkt, hw, hb, hlt, hs, hm]
  · simp [tryBlockRaw, tryBlock, privateKey, RawWorld.toWorld, textResult, hc, h0, hp, hf, hk,
      hkt, hw, hb, hlt, hs, hm]

theorem POSTRaw_eq_POST (rw : RawWorld) (h : ThrowsErrors rw) :
    POSTRaw rw = ((POST rw.toWorld).1, HandlerOutcome.returns (POST rw.toWorld).2) := by
  unfold POSTRaw POST
  rw [tryBlockRaw_eq_tryBlock rw h]
  rcases tryBlock rw.toWorld with ⟨t, r⟩
  cases r with
  | error e => rfl
  | ok p => rfl

theorem privateKey_toWorld (rw : RawWorld) :
    privateKey rw.toWorld
      = jsOr (rw.env "MONAD_TREASURY_PRIVATE_KEY") (rw.env "TREASURY_PRIVATE_KEY") := rfl

theorem errorResult_throwsError {α : Type} (r : Except String α) :
    ThrowsError (errorResult r) := by
  intro e he
  cases r with
  | ok a => simp [errorResult] at he
  | error m => exact ⟨m, by simpa [errorResult] using he.symm⟩

theorem toRaw_throwsErrors (w : World) : ThrowsErrors w.toRaw :=
  ⟨fun _ => errorResult_throwsError _, errorResult_throwsError _,
    fun _ => errorResult_throwsError _, fun _ => errorResult_throwsError _,
    fun _ => errorResult_throwsError _, fun _ _ _ _ => errorResult_throwsError _,
    fun _ => errorResult_throwsError _⟩

theorem POSTRaw_of_nullish (rw : RawWorld)
    (h : rw.getCode PYTH_ENTROPY_ADDRESS = Except.error Thrown.nullish) :
    (POSTRaw rw).2 = HandlerOutcome.throwsTypeError := by
  simp [POSTRaw, tryBlockRaw, h, catchBlock]

/-- C9: every failure inside `POST` is caught and answered with status 500 and
the body `success: false, error: message`, without `randomValue` or
`entropyProof`, where `message` is the message of the thrown error: the
messages of lines 29, 50 and 71 for ContractNotFound, MissingCredential and
InsufficientBalance, and the message of the `Error` thrown by `getCode`,
`getDefaultProvider`, `getFee`, the `Wallet` constructor, `getBalance`,
`requestWithCallback` or `wait`, each at the point where the run reaches that
call; a run in which every call succeeds returns the success response of the
proof. When every failing collaborator call throws an `Error`, `POST` itself
does not throw: it returns a response, the one of `POST` over the messages,
which is the success response of the proof or the failure response of the
caught message, and has `success: true` if and only if it carries an
`entropyProof`. -/
theorem failure_response (rw : RawWorld) :
    (ThrowsErrors rw →
      ∃ response, (POSTRaw rw).2 = HandlerOutcome.returns response ∧
        response = (POST rw.toWorld).2 ∧
        (response.body.success = true ↔ response.body.entropyProof.isSome = true) ∧
        (response.body.success = true → ∃ p,
          (tryBlockRaw rw).2 = Except.ok p ∧ response = successResponse p) ∧
        (response.body.success = false → ∃ message,
          (tryBlockRaw rw).2 = Except.error (Thrown.errorObject message) ∧
          response = failureResponse message)) ∧
    (∀ m, rw.getCode PYTH_ENTROPY_ADDRESS = Except.error (Thrown.errorObject m) →
      Fails rw m) ∧
    (∀ code, rw.getCode PYTH_ENTROPY_ADDRESS = Except.ok code →
      (code = "0x" → Fails rw
        "No contract found at address 0x36825bf3fbdf5a29e2d5148bfe7dcf7b5639e320 on Monad Testnet") ∧
      (code ≠ "0x" →
        (∀ m, rw.getDefaultProvider = Except.error (Thrown.errorObject m) → Fails rw m) ∧
        (∀ defaultProvider, rw.getDefaultProvider = Except.ok defaultProvider →
          (∀ m, rw.getFee defaultProvider = Except.error (Thrown.errorObject m) →
            Fails rw m) ∧
          (∀ fee, rw.getFee defaultProvider = Except.ok fee →
            (envTruthy (privateKey rw.toWorld) = false →
              Fails rw "MONAD_TREASURY_PRIVATE_KEY environment variable is required") ∧
            (∀ key, privateKey rw.toWorld = some key → key ≠ "" →
              (∀ m, rw.newWallet key = Except.error (Thrown.errorObject m) → Fails rw m) ∧
              (∀ walletAddress, rw.newWallet key = Except.ok walletAddress →
                (∀ m, rw.getBalance walletAddress = Except.error (Thrown.errorObject m) →
                  Fails rw m) ∧
                (∀ balance, rw.getBalance walletAddress = Except.ok balance →
                  (balance < fee →
                    Fails rw ("Insufficient balance. Need " ++ formatEther fee
                      ++ " MON, have " ++ formatEther balance
                      ++ " MON. Please add more MON to treasury: " ++ walletAddress)) ∧
                  (fee ≤ balance →
                    (∀ m, rw.requestWithCallback defaultProvider (rw.randomBytes 32) fee 700000
                        = Except.error (Thrown.errorObject m) → Fails rw m) ∧
                    (∀ tx, rw.requestWithCallback defaultProvider (rw.randomBytes 32) fee 700000
                        = Except.ok tx →
                      (∀ m, rw.wait tx = Except.error (Thrown.errorObject m) → Fails rw m) ∧
                      (∀ receipt, rw.wait tx = Except.ok receipt →
                        (POSTRaw rw).2 = HandlerOutcome.returns
                          (successResponse
                            (buildProof rw.toWorld (rw.randomBytes 32) tx receipt)))))))))))) := by
  refine ⟨fun h => ?_, fun m hc => ?_, fun code hc => ⟨fun h0 => ?_, fun h0 =>
    ⟨fun m hp => ?_, fun defaultProvider hp => ⟨fun m hf => ?_, fun fee hf =>
      ⟨fun hk => ?_, fun key hk hkne => ⟨fun m hw => ?_, fun walletAddress hw =>
        ⟨fun m hb => ?_, fun balance hb => ⟨fun hlt => ?_, fun hle =>
          ⟨fun m hs => ?_, fun tx hs => ⟨fun m hm => ?_, fun receipt hm => ?_⟩⟩⟩⟩⟩⟩⟩⟩⟩⟩
  · have hraw := tryBlockRaw_eq_tryBlock rw h
    have hpost := POSTRaw_eq_POST rw h
    refine ⟨(POST rw.toWorld).2, by rw [hpost], rfl, ?_⟩
    rcases hr : tryBlock rw.toWorld with ⟨t, r⟩
    rw [hr] at hraw
    cases r with
    | error e =>
      rw [POST_of_error hr]
      refine ⟨by simp, fun hs => by simp at hs, fun _ => ⟨e.message, by rw [hraw]; rfl, rfl⟩⟩
    | ok p =>
      rw [POST_of_ok hr]
      refine ⟨by simp, fun _ => ⟨p, by rw [hraw], rfl⟩, fun hs => by simp at hs⟩
  · simp [Fails, POSTRaw, tryBlockRaw, catchBlock, hc]
  · subst h0
    simp only [Fails, POSTRaw, tryBlockRaw, catchBlock, HandlerError.thrown, hc, if_true]
    rfl
  · simp [Fails, POSTRaw, tryBlockRaw, catchBlock, hc, h0, hp]
  · simp [Fails, POSTRaw, tryBlockRaw, catchBlock, hc, h0, hp, hf]
  · rw [privateKey_toWorld] at hk
    cases hj : jsOr (rw.env "MONAD_TREASURY_PRIVATE_KEY") (rw.env "TREASURY_PRIVATE_KEY") with
    | none =>
      simp only [Fails, POSTRaw, tryBlockRaw, catchBlock, HandlerError.thrown, hc, h0, hp, hf,
        hj, if_false]
      rfl
    | some key =>
      rw [hj] at hk
      simp only [Fails, POSTRaw, tryBlockRaw, catchBlock, HandlerError.thrown, hc, h0, hp, hf,
        hj, hk, if_true, if_false]
      rfl
  all_goals rw [privateKey_toWorld] at hk
  all_goals have hkt : ¬ envTruthy (some key) = false := fun hh => hkne ((envTruthy_some key).mp hh)
  · simp [Fails, POSTRaw, tryBlockRaw, catchBlock, hc, h0, hp, hf, hk, hkt, hw]
  · simp [Fails, POSTRaw, tryBlockRaw, catchBlock, hc, h0, hp, hf, hk, hkt, hw, hb]
  · simp only [Fails, POSTRaw, tryBlockRaw, catchBlock, HandlerError.thrown, hc, h0, hp, hf,
      hk, if_neg hkt, hw, hb, hlt, if_true, if_false]
    rfl
  all_goals have hnlt : ¬ balance < fee := Nat.not_lt.mpr hle
  · simp [Fails, POSTRaw, tryBlockRaw, catchBlock, hc, h0, hp, hf, hk, hkt, hw, hb, hnlt, hs]
  · simp [Fails, POSTRaw, tryBlockRaw, catchBlock, hc, h0, hp, hf, hk, hkt, hw, hb, hnlt, hs,
      hm]
  · simp [POSTRaw, tryBlockRaw, hc, h0, hp, hf, hk, hkt, hw, hb, hnlt, hs, hm]

/-- Witness of C9 at the raw world of `revertingWorld`, where the submission
is rejected with an `Error`. -/
theorem failure_response_witness :
    ThrowsErrors revertingWorld.toRaw ∧
    (∃ response, (POSTRaw revertingWorld.toRaw).2 = HandlerOutcome.returns response ∧
      response = (POST revertingWorld.toRaw.toWorld).2 ∧
      (response.body.success = true ↔ response.body.entropyProof.isSome = true) ∧
      (response.body.success = true → ∃ p,
        (tryBlockRaw revertingWorld.toRaw).2 = Except.ok p ∧ response = successResponse p) ∧
      (response.body.success = false → ∃ message,
        (tryBlockRaw revertingWorld.toRaw).2 = Except.error (Thrown.errorObject message) ∧
        response = failureResponse message)) ∧
    Fails revertingWorld.toRaw "execution reverted" :=
  ⟨toRaw_throwsErrors revertingWorld,
    (failure_response revertingWorld.toRaw).1 (toRaw_throwsErrors revertingWorld),
    ((((((((((failure_response revertingWorld.toRaw).2.2 "0x6080" rfl).2 (by decide)).2
      "0xP" rfl).2 1000 rfl).2 "k1" (by decide) (by decide)).2 "0xW" rfl).2 2000 rfl).2
      (by decide)).1 "execution reverted" rfl)⟩

/-! ## Credential -/

/-- C10: when the contract-code check passes and the provider and fee reads
succeed, the key the signer is built from is the value of
`MONAD_TREASURY_PRIVATE_KEY` when that is set and non-empty, otherwise the
value of `TREASURY_PRIVATE_KEY` when that is set and non-empty; and `POST`
fails with MissingCredential exactly when neither is set to a non-empty
value, in which case no signer is built. -/
theorem credential_resolution (w : World) (defaultProvider : String) (fee : Nat)
    (h : ReadsSucceed w defaultProvider fee) :
    (∀ k, w.env "MONAD_TREASURY_PRIVATE_KEY" = some k → k ≠ "" →
      (POST w).1.filter Effect.isNewWallet = [Effect.newWallet k]) ∧
    (∀ k, envTruthy (w.env "MONAD_TREASURY_PRIVATE_KEY") = false →
      w.env "TREASURY_PRIVATE_KEY" = some k → k ≠ "" →
      (POST w).1.filter Effect.isNewWallet = [Effect.newWallet k]) ∧
    ((tryBlock w).2 = Except.error HandlerError.missingCredential ↔
      envTruthy (w.env "MONAD_TREASURY_PRIVATE_KEY") = false ∧
        envTruthy (w.env "TREASURY_PRIVATE_KEY") = false) ∧
    (envTruthy (w.env "MONAD_TREASURY_PRIVATE_KEY") = false ∧
        envTruthy (w.env "TREASURY_PRIVATE_KEY") = false →
      (POST w).2.body.error
        = some "MONAD_TREASURY_PRIVATE_KEY environment variable is required" ∧
      (POST w).1.filter Effect.isNewWallet = []) := by
  refine ⟨fun k hk hne => ?_, fun k hp hk hne => ?_, ⟨fun hm => ?_, fun hn => ?_⟩,
    fun hn => ?_⟩
  · have hpk : privateKey w = some k := by
      simp [privateKey, jsOr, hk, envTruthy, hne]
    rw [POST_trace]
    exact (tryBlock_keyed h hpk hne).1
  · have hpk : privateKey w = some k := by
      simp [privateKey, jsOr, hp, hk]
    rw [POST_trace]
    exact (tryBlock_keyed h hpk hne).1
  · rw [← envTruthy_privateKey]
    by_contra hnot
    have htrue : envTruthy (privateKey w) = true := by simpa using hnot
    obtain ⟨k, hk, hne⟩ := envTruthy_true_inv htrue
    exact (tryBlock_keyed h hk hne).2 hm
  · rw [tryBlock_keyless h ((envTruthy_privateKey w).mpr hn)]
  · have ht := tryBlock_keyless h ((envTruthy_privateKey w).mpr hn)
    rw [POST_of_error ht]
    exact ⟨rfl, rfl⟩

/-- Witness of C10 at `fallbackWorld`: the primary name is set to the empty
string, so the signer is built from the fallback value `k2`. -/
theorem credential_resolution_witness :
    ReadsSucceed fallbackWorld "0xP" 1000 ∧
    (POST fallbackWorld).1.filter Effect.isNewWallet = [Effect.newWallet "k2"] :=
  ⟨fallbackWorld_reads,
    (credential_resolution fallbackWorld "0xP" 1000 fallbackWorld_reads).2.1 "k2"
      (by decide) (by decide) (by decide)⟩

/-! ## Commitment and transaction hash -/

/-- C11: on every successful run of `POST` in which `randomBytes(32)` yields 32
bytes, `entropyProof.userRandomNumber` is the hex encoding of the commitment
passed as `userCommitment` to the single `requestWithCallback` submission: it
is `0x` followed by 64 hexadecimal digits which, read two at a time, are the
bytes of that commitment. `entropyProof.transactionHash`, the search parameter
of `explorerUrl` and the path suffix of `monadExplorerUrl` are the hash of the
transaction returned by that submission. -/
theorem commitment_and_hash_reported (w : World) (hlen : (w.randomBytes 32).length = 32)
    (hs : (POST w).2.body.success = true) :
    ∃ p defaultProvider commitment fee tx,
      (POST w).2.body.entropyProof = some p ∧
      submissions (POST w).1
        = [Effect.requestWithCallback defaultProvider commitment fee 700000] ∧
      w.requestWithCallback defaultProvider commitment fee 700000 = Except.ok tx ∧
      commitment.length = 32 ∧
      p.userRandomNumber = hexlify commitment ∧
      p.userRandomNumber.data.take 2 = ['0', 'x'] ∧
      (p.userRandomNumber.data.drop 2).length = 64 ∧
      (∀ c ∈ p.userRandomNumber.data.drop 2, isHexDigit c = true) ∧
      decodeHexBytes (p.userRandomNumber.data.drop 2) = commitment.map Fin.val ∧
      p.transactionHash = tx.hash ∧
      p.explorerUrl
        = "https://entropy-explorer.pyth.network/?chain=monad-testnet&search=" ++ tx.hash ∧
      p.monadExplorerUrl = "https://testnet.monadexplorer.com/tx/" ++ tx.hash := by
  obtain ⟨t, p, hp⟩ := POST_success_inv hs
  obtain ⟨defaultProvider, fee, key, walletAddress, balance, tx, receipt, hc, rfl, rfl⟩ :=
    tryBlock_ok_inv hp
  rw [POST_of_ok hp]
  refine ⟨_, defaultProvider, w.randomBytes 32, fee, tx, rfl, rfl, hc.submitted, hlen, rfl,
    rfl, ?_, ?_, ?_, rfl, rfl, rfl⟩
  · have h2 := hexlify_body_length (w.randomBytes 32)
    rw [hlen] at h2
    exact h2
  · exact hexlify_body_hex (w.randomBytes 32)
  · exact decodeHexBytes_hexlify_body (w.randomBytes 32)

/-- Witness of C11 at a funded run of `sampleWorld`, whose commitment is 32
bytes `0xab`. -/
theorem commitment_and_hash_reported_witness :
    ((sampleWorld 1000 2000).randomBytes 32).length = 32 ∧
    (POST (sampleWorld 1000 2000)).2.body.success = true ∧
    ∃ p defaultProvider commitment fee tx,
      (POST (sampleWorld 1000 2000)).2.body.entropyProof = some p ∧
      submissions (POST (sampleWorld 1000 2000)).1
        = [Effect.requestWithCallback defaultProvider commitment fee 700000] ∧
      (sampleWorld 1000 2000).requestWithCallback defaultProvider commitment fee 700000
        = Except.ok tx ∧
      commitment.length = 32 ∧
      p.userRandomNumber = hexlify commitment ∧
      p.userRandomNumber.data.take 2 = ['0', 'x'] ∧
      (p.userRandomNumber.data.drop 2).length = 64 ∧
      (∀ c ∈ p.userRandomNumber.data.drop 2, isHexDigit c = true) ∧
      decodeHexBytes (p.userRandomNumber.data.drop 2) = commitment.map Fin.val ∧
      p.transactionHash = tx.hash ∧
      p.explorerUrl
        = "https://entropy-explorer.pyth.network/?chain=monad-testnet&search=" ++ tx.hash ∧
      p.monadExplorerUrl = "https://testnet.monadexplorer.com/tx/" ++ tx.hash :=
  ⟨by decide, by decide,
    commitment_and_hash_reported (sampleWorld 1000 2000) (by decide) (by decide)⟩

end GenerateEntropy

namespace SmartAccountUtils

/-! ## Lemmas on capability discovery -/

theorem batchEntry_null : batchEntry JSValue.null = JSValue.undefined := rfl

theorem supportInfo_capabilities (capabilities : JSValue) :
    (supportInfo capabilities).optionalGet "capabilities"
      = if capabilities.truthy then capabilities else JSValue.object [] := rfl

theorem optionalGet_eq_getProperty (v : JSValue) (key : String) :
    v.optionalGet key = v.getProperty key := by
  cases v <;> rfl

theorem getProperty_of_falsy {v : JSValue} (h : v.truthy = false) (key : String) :
    v.getProperty key = JSValue.undefined := by
  cases v <;> first | rfl | simp [JSValue.truthy] at h

theorem batchEntry_supportInfo (capabilities : JSValue) :
    (batchEntry (supportInfo capabilities)).truthy
      = (capabilities.getProperty "batchTransactions").truthy := by
  unfold batchEntry
  rw [supportInfo_capabilities]
  by_cases h : capabilities.truthy = true
  · rw [if_pos h, optionalGet_eq_getProperty]
  · have hf : capabilities.truthy = false := by simpa using h
    rw [if_neg h, getProperty_of_falsy hf]
    rfl

theorem checkSmartAccountSupport_trace (browser : Browser)
    (walletClient : Option WalletClient) :
    (checkSmartAccountSupport browser walletClient).1.any WalletEffect.isBatchRequest
      = false := by
  unfold checkSmartAccountSupport
  repeat' split
  all_goals simp [WalletEffect.isBatchRequest]

theorem batchTransactions_of_entry_falsy {browser : Browser} {client : WalletClient}
    {provider : InjectedProvider} (transactions : JSValue)
    (hp : browser.ethereum = some provider)
    (h : (batchEntry (checkSmartAccountSupport browser (some client)).2).truthy = false) :
    batchTransactions browser (some client) transactions
      = ((checkSmartAccountSupport browser (some client)).1,
          Except.error "Batch transactions not supported") := by
  unfold batchEntry at h
  simp [batchTransactions, hp, h]

theorem batchTransactions_of_entry_truthy {browser : Browser} {client : WalletClient}
    {provider : InjectedProvider} (transactions : JSValue)
    (hp : browser.ethereum = some provider)
    (h : (batchEntry (checkSmartAccountSupport browser (some client)).2).truthy = true) :
    (batchTransactions browser (some client) transactions).1
      = (checkSmartAccountSupport browser (some client)).1
          ++ [WalletEffect.request "eth_sendTransactionBatch" [transactions]] := by
  unfold batchEntry at h
  simp only [batchTransactions, hp, h]
  cases provider.request "eth_sendTransactionBatch" [transactions] <;> simp

theorem checkSmartAccountSupport_of_supports {browser : Browser} {client : WalletClient}
    {provider : InjectedProvider} (hp : browser.ethereum = some provider)
    (h : DiscoverySupports client provider) :
    ∃ capabilities,
      (checkSmartAccountSupport browser (some client)).2 = supportInfo capabilities ∧
      (capabilities.getProperty "batchTransactions").truthy = true := by
  obtain ⟨addresses, capabilities, ha, hr, ht⟩ := h
  exact ⟨capabilities, by simp [checkSmartAccountSupport, hp, ha, hr], ht⟩

theorem checkSmartAccountSupport_of_lacks {browser : Browser} {client : WalletClient}
    {provider : InjectedProvider} (hp : browser.ethereum = some provider)
    (h : DiscoveryLacks client provider) :
    (batchEntry (checkSmartAccountSupport browser (some client)).2).truthy = false := by
  rcases h with ⟨m, ha⟩ | ⟨a, m, ha, hr⟩ | ⟨a, m, ha, hr⟩ | ⟨a, c, ha, hr, ht⟩
  · simp [checkSmartAccountSupport, hp, ha, batchEntry_null, JSValue.truthy]
  · simp [checkSmartAccountSupport, hp, ha, hr, batchEntry_null, JSValue.truthy]
  · simp only [checkSmartAccountSupport, hp, ha, hr, batchEntry_supportInfo]
    rfl
  · simp only [checkSmartAccountSupport, hp, ha, hr, batchEntry_supportInfo, ht]

theorem supports_or_lacks (client : WalletClient) (provider : InjectedProvider) :
    DiscoverySupports client provider ∨ DiscoveryLacks client provider := by
  cases ha : client.getAddresses with
  | error m => exact Or.inr (Or.inl ⟨m, ha⟩)
  | ok a =>
    cases hr : provider.request "wallet_getCapabilities" [a] with
    | throws m => exact Or.inr (Or.inr (Or.inl ⟨a, m, ha, hr⟩))
    | rejects m => exact Or.inr (Or.inr (Or.inr (Or.inl ⟨a, m, ha, hr⟩)))
    | resolves c =>
      cases ht : (c.getProperty "batchTransactions").truthy with
      | true => exact Or.inl ⟨a, c, ha, hr, ht⟩
      | false => exact Or.inr (Or.inr (Or.inr (Or.inr ⟨a, c, ha, hr, ht⟩)))

/-- C12: `batchTransactions` issues the `eth_sendTransactionBatch` request only
when `checkSmartAccountSupport` returned its object with a `capabilities`
value that has a truthy `batchTransactions` entry. When the wallet client or
the injected provider is absent it returns `null` without any call. When both
are present and discovery fails (`getAddresses` throws, the
`wallet_getCapabilities` request throws or rejects), resolves to `null` or
`undefined`, or resolves to a value without a truthy `batchTransactions`
entry, it throws `Batch transactions not supported` without sending the
batch. When discovery does give a truthy entry the batch request is sent,
once. -/
theorem batch_only_when_supported (browser : Browser) (walletClient : Option WalletClient)
    (transactions : JSValue) :
    ((batchTransactions browser walletClient transactions).1.any WalletEffect.isBatchRequest
        = true →
      ∃ capabilities,
        (checkSmartAccountSupport browser walletClient).2 = supportInfo capabilities ∧
        (capabilities.getProperty "batchTransactions").truthy = true) ∧
    ((walletClient = none ∨ browser.ethereum = none) →
      batchTransactions browser walletClient transactions = ([], Except.ok JSValue.null)) ∧
    (∀ client provider, walletClient = some client → browser.ethereum = some provider →
      DiscoveryLacks client provider →
      (batchTransactions browser walletClient transactions).2
        = Except.error "Batch transactions not supported" ∧
      (batchTransactions browser walletClient transactions).1.any WalletEffect.isBatchRequest
        = false) ∧
    (∀ client provider, walletClient = some client → browser.ethereum = some provider →
      DiscoverySupports client provider →
      (batchTransactions browser walletClient transactions).1.filter
          WalletEffect.isBatchRequest
        = [WalletEffect.request "eth_sendTransactionBatch" [transactions]]) := by
  have habsent : (walletClient = none ∨ browser.ethereum = none) →
      batchTransactions browser walletClient transactions = ([], Except.ok JSValue.null) := by
    intro h
    cases walletClient with
    | none => simp [batchTransactions]
    | some client =>
      rcases h with h | h
      · simp at h
      · simp [batchTransactions, h]
  have hlacks : ∀ client provider, walletClient = some client →
      browser.ethereum = some provider → DiscoveryLacks client provider →
      (batchTransactions browser walletClient transactions).2
        = Except.error "Batch transactions not supported" ∧
      (batchTransactions browser walletClient transactions).1.any WalletEffect.isBatchRequest
        = false := by
    intro client provider hw hp hl
    subst hw
    rw [batchTransactions_of_entry_falsy transactions hp
      (checkSmartAccountSupport_of_lacks hp hl)]
    exact ⟨rfl, checkSmartAccountSupport_trace browser (some client)⟩
  refine ⟨fun hany => ?_, habsent, hlacks, fun client provider hw hp hs => ?_⟩
  · cases hw : walletClient with
    | none =>
      rw [habsent (Or.inl hw)] at hany
      simp at hany
    | some client =>
      cases hp : browser.ethereum with
      | none =>
        rw [habsent (Or.inr hp)] at hany
        simp at hany
      | some provider =>
        rcases supports_or_lacks client provider with hs | hl
        · exact checkSmartAccountSupport_of_supports hp hs
        · rw [(hlacks client provider hw hp hl).2] at hany
          simp at hany
  · subst hw
    obtain ⟨capabilities, hc, ht⟩ := checkSmartAccountSupport_of_supports hp hs
    have hentry : (batchEntry (checkSmartAccountSupport browser (some client)).2).truthy
        = true := by
      rw [hc, batchEntry_supportInfo, ht]
    rw [batchTransactions_of_entry_truthy transactions hp hentry, List.filter_append]
    have hnone := checkSmartAccountSupport_trace browser (some client)
    have hfilter : (checkSmartAccountSupport browser (some client)).1.filter
        WalletEffect.isBatchRequest = [] := by
      rw [List.filter_eq_nil_iff]
      intro e he
      have := List.any_eq_false.mp hnone e he
      simpa using this
    rw [hfilter]
    rfl

/-- Witness of C12: with `plainProvider` the call throws without sending the
batch; with `supportingProvider` the batch is sent once. -/
theorem batch_only_when_supported_witness :
    DiscoveryLacks sampleClient plainProvider ∧
    (batchTransactions { ethereum := some plainProvider } (some sampleClient)
        (JSValue.array [])).2 = Except.error "Batch transactions not supported" ∧
    (batchTransactions { ethereum := some plainProvider } (some sampleClient)
        (JSValue.array [])).1.any WalletEffect.isBatchRequest = false ∧
    DiscoverySupports sampleClient supportingProvider ∧
    (batchTransactions { ethereum := some supportingProvider } (some sampleClient)
        (JSValue.array [])).1.filter WalletEffect.isBatchRequest
      = [WalletEffect.request "eth_sendTransactionBatch" [JSValue.array []]] :=
  have hl : DiscoveryLacks sampleClient plainProvider :=
    Or.inr (Or.inr (Or.inr ⟨_, _, rfl, rfl, rfl⟩))
  have hs : DiscoverySupports sampleClient supportingProvider := ⟨_, _, rfl, rfl, rfl⟩
  ⟨hl,
    ((batch_only_when_supported { ethereum := some plainProvider } (some sampleClient)
      (JSValue.array [])).2.2.1 sampleClient plainProvider rfl rfl hl).1,
    ((batch_only_when_supported { ethereum := some plainProvider } (some sampleClient)
      (JSValue.array [])).2.2.1 sampleClient plainProvider rfl rfl hl).2,
    hs,
    (batch_only_when_supported { ethereum := some supportingProvider } (some sampleClient)
      (JSValue.array [])).2.2.2 sampleClient supportingProvider rfl rfl hs⟩

end SmartAccountUtils
